import Mathlib

/-!
Shallow embedding of the golfer-career simulation engine
(`src/core/simulation.py`, with the data model of `src/domain/models.py`),
together with theorems settling the frozen claims about it.

Modelling conventions:
* Python `int` is `Int`; Python `float` is `ℚ` (every float literal of the
  source is read as the exact rational it denotes in the source text).
* Python `int(x)` on a float is truncation toward zero (`pyTrunc`),
  `round(x)` is round-half-to-even (`pyRound`), `//` is `Int.fdiv`.
* Python dicts keyed by strings are association lists in insertion order.
* `random.Random` draws are supplied by an `Oracle`: each call of
  `int(round(self._random.gauss(mean, std)))` is modelled by an
  oracle-supplied integer (the mean and standard deviation only
  parameterize the distribution of that integer, never the downstream
  arithmetic, which follows the source); `random.choice` and
  `random.randint` draws are likewise oracle inputs.
* Python's stable sorts (`sorted`, `list.sort`) are modelled by
  `List.insertionSort`, which places each element before the first
  element its key is strictly below and after all equal keys, i.e. the
  unique stable sort for the comparison key.
* The external `StateRepository.save_state` collaborator is modelled as a
  write-only log: the `saved` field of `EngineState` records, in call
  order, every state handed to the store.
-/

namespace GolferCareer

/-- Python `str.lower()` restricted to the ASCII action-kind strings the
engine dispatches on. -/
def lowerStr (s : String) : String := ⟨s.data.map Char.toLower⟩

/-- Python `int(x)` applied to a float value: truncation toward zero. -/
def pyTrunc (q : ℚ) : Int := if q < 0 then Int.ceil q else Int.floor q

/-- Python `round(x)` applied to a float value: round half to even. -/
def pyRound (q : ℚ) : Int :=
  let f := Int.floor q
  let r := q - f
  if r < 1 / 2 then f
  else if 1 / 2 < r then f + 1
  else if f % 2 = 0 then f else f + 1

/-- Python `round(x, 2)`: round half to even at two decimal places. -/
def pyRound2 (q : ℚ) : ℚ := (pyRound (q * 100) : ℚ) / 100

/-- Python format `f"{n:+d}"`: an explicit sign before the digits. -/
def fmtSigned (n : Int) : String := if 0 ≤ n then "+" ++ toString n else toString n

/-- Python format `f"{n:03d}"` for a non-negative index. -/
def pad3 (n : Nat) : String :=
  let s := toString n
  if 3 ≤ s.length then s else String.mk (List.replicate (3 - s.length) (Char.ofNat 48)) ++ s

/-- Python slice `xs[-n:]`: the last `n` elements of `xs` (all of them when
`xs` is shorter). -/
def lastN (n : Nat) (xs : List α) : List α := xs.drop (xs.length - n)

/-- Lookup `d.get(k, 0)` in a string-keyed association list. -/
def getSkill (skills : List (String × Int)) (k : String) : Int :=
  ((skills.find? (fun p => p.1 == k)).map Prod.snd).getD 0

/-- Assignment `d[k] = v` in a string-keyed association list: update the
existing binding in place, else append a new binding (insertion order, as
for a Python dict). -/
def setSkill (skills : List (String × Int)) (k : String) (v : Int) : List (String × Int) :=
  match skills with
  | [] => [(k, v)]
  | (k0, v0) :: rest => if k0 == k then (k, v) :: rest else (k0, v0) :: setSkill rest k v

-- Data model (src/domain/models.py) ----------------------------------------

/-- `Tournament` of `domain/models.py`. -/
structure Tournament where
  name : String
  week : Int
  difficulty : ℚ
  purse : Int
  reputation_reward : Int
  entry_fee : Option Int := none
deriving DecidableEq, Repr

/-- `LedgerEntry` of `domain/models.py`. -/
structure LedgerEntry where
  week : Int
  action : String
  description : String
  money_delta : Int
  fatigue_physical_delta : Int
  fatigue_mental_delta : Int
  reputation_delta : Int
  motivation_delta : Int := 0
  skill_changes : List (String × Int) := []
deriving DecidableEq, Repr

/-- `TournamentResult` of `domain/models.py`. -/
structure TournamentResult where
  week : Int
  tournament_name : String
  position : String
  missed_cut : Bool
  performance : ℚ
  entry_fee : Int
  prize_money : Int
  net_money : Int
  reputation_delta : Int
  motivation_delta : Int
  message : String
  round_scores : List (Option Int) := []
deriving DecidableEq, Repr

/-- `SeasonPlayer` of `domain/models.py`. -/
structure SeasonPlayer where
  player_id : String
  name : String
  base_skill : ℚ
  earnings : Int := 0
  points : Int := 0
  events_played : Int := 0
  cuts_made : Int := 0
  wins : Int := 0
  last_result : Option String := none
deriving DecidableEq, Repr

/-- `PlayerSeasonStats` of `domain/models.py`. -/
structure PlayerSeasonStats where
  player_id : String
  earnings : Int := 0
  points : Int := 0
  events_played : Int := 0
  cuts_made : Int := 0
  wins : Int := 0
  last_result : Option String := none
deriving DecidableEq, Repr

/-- `Golfer` of `domain/models.py`. -/
structure Golfer where
  name : String
  age : Int
  skills : List (String × Int)
  fatigue_physical : Int
  fatigue_mental : Int
  form : Int
  money : Int
  reputation : Int
  motivation : Int
deriving DecidableEq, Repr

/-- `Season` of `domain/models.py`. -/
structure Season where
  current_week : Int
  total_weeks : Int
  tournaments : List Tournament
deriving DecidableEq, Repr

/-- `Season.lookup_tournament`. -/
def Season.lookup_tournament (s : Season) (week : Int) : Option Tournament :=
  s.tournaments.find? (fun t => t.week == week)

/-- One row of the leaderboard dictionaries built by
`_build_season_rankings`. -/
structure RankingEntry where
  player_id : String
  name : String
  earnings : Int
  points : Int
  events : Int
  cuts : Int
  wins : Int
  last_result : String
  is_user : Bool
  rank : Nat := 0
deriving DecidableEq, Repr

/-- One row of the `tournaments` list of the season summary. -/
structure SummaryRow where
  week : Int
  tournament_name : String
  position : String
  message : String
  round_scores : List (Option Int)
  total_strokes : Int
  net_money : Int
  prize_money : Int
deriving DecidableEq, Repr

/-- One `{"gains", "depenses", "net"}` bucket of the summary's ledger
totals. -/
structure LedgerBucket where
  gains : Int := 0
  depenses : Int := 0
  net : Int := 0
deriving DecidableEq, Repr

/-- The season summary dictionary built by `_finalize_season_summary`;
its `player` dict (the stats snapshot plus an attached `rank`) is split
into the two final fields. -/
structure SeasonSummary where
  rankings : List RankingEntry
  tournaments : List SummaryRow
  ledger_totals : List (String × LedgerBucket)
  player : PlayerSeasonStats
  player_rank : Option Nat
deriving DecidableEq, Repr

/-- `SimulationState` of `domain/models.py`. -/
structure SimulationState where
  golfer : Golfer
  season : Season
  ledger : List LedgerEntry := []
  last_tournament_result : Option TournamentResult := none
  season_players : List SeasonPlayer := []
  player_stats : Option PlayerSeasonStats := none
  season_rankings : List RankingEntry := []
  season_results : List TournamentResult := []
  season_summary : Option SeasonSummary := none
  last_message : Option String := none
deriving DecidableEq, Repr

-- Configuration (the repository's per-action rule dictionaries) -------------

/-- The `training` rule dictionary; `none` models an absent key. -/
structure TrainingRules where
  skill_increase : Option Int := none
  physical_fatigue : Option Int := none
  fatigue : Option Int := none
  mental_fatigue : Option Int := none
  cost : Option Int := none
deriving DecidableEq, Repr

/-- The `rest` rule dictionary. -/
structure RestRules where
  physical_recovery : Option Int := none
  fatigue_recovery : Option Int := none
  mental_recovery : Option Int := none
  form_gain : Option Int := none
deriving DecidableEq, Repr

/-- The `tournament` rule dictionary. -/
structure TournamentRules where
  physical_fatigue : Option Int := none
  fatigue : Option Int := none
  mental_fatigue : Option Int := none
  entry_fee : Option Int := none
  motivation_per_1000 : Option ℚ := none
  motivation_loss_on_miss : Option Int := none
  motivation_per_reputation : Option ℚ := none
deriving DecidableEq, Repr

/-- The `agent_chat` rule dictionary. -/
structure AgentChatRules where
  motivation_boost : Option Int := none
  mental_recovery : Option Int := none
deriving DecidableEq, Repr

/-- The read-only configuration surface the engine consumes through the
repository's rule accessors. -/
structure Config where
  training : TrainingRules := {}
  rest : RestRules := {}
  tournament : TournamentRules := {}
  agent_chat : AgentChatRules := {}
deriving DecidableEq, Repr

/-- The action payload dictionary, restricted to the keys the handlers
read. -/
structure Payload where
  skip_advance : Bool := false
  skill : Option String := none
  motivation_delta : Option Int := none
  mental_recovery : Option Int := none
deriving DecidableEq, Repr

/-- The random draws consumed by one action, supplied as explicit inputs:
`aiDraws i r` is the value of `int(round(gauss(mean, std)))` for round `r`
of the `i`-th AI entrant, `playerDraws r` the same for the human,
`choiceIdx` selects `random.choice`'s pick among the golfer's skills,
`decayPercents i` is the `randint(1, 3)` draw for the `i`-th skill, and
`rosterDraws i` is the `gauss(0, 4.0)` draw for the `i`-th generated
roster player. -/
structure Oracle where
  aiDraws : Nat → Nat → Int := fun _ _ => 0
  playerDraws : Nat → Int := fun _ => 0
  choiceIdx : Nat := 0
  decayPercents : Nat → Int := fun _ => 1
  rosterDraws : Nat → ℚ := fun _ => 0

/-- The engine object: the owned mutable state, the
`_tournament_processed` flag, and the log of states handed to the external
store's `save_state`. -/
structure EngineState where
  state : SimulationState
  tournament_processed : Bool := false
  saved : List SimulationState := []
deriving Repr

-- Core constants and clamps (src/core/simulation.py) -----------------------

/-- `par_per_round = 72` in `_simulate_tournament`. -/
def par_per_round : Int := 72

/-- `rounds = 4` in `_simulate_tournament`. -/
def roundsN : Nat := 4

/-- `field_size = 200` in `_simulate_tournament`. -/
def field_size : Nat := 200

/-- `cut_count = 80` in `_simulate_tournament`. -/
def cut_count : Nat := 80

/-- `_bounded_fatigue`: clamp to the fatigue floor 0 and ceiling 100. -/
def bounded_fatigue (value : Int) : Int := min 100 (max 0 value)

/-- `_adjust_motivation`: clamp the new motivation to [0, 100], returning
the updated golfer and the actual (post-clamp) change. -/
def adjust_motivation (delta : Int) (g : Golfer) : Golfer × Int :=
  let previous := g.motivation
  let new_value := min 100 (max 0 (previous + delta))
  ({ g with motivation := new_value }, new_value - previous)

/-- `_season_completed`: the season is terminal once the current week has
passed the last week. -/
def season_completed (st : SimulationState) : Prop :=
  st.season.current_week > st.season.total_weeks

instance (st : SimulationState) : Decidable (season_completed st) :=
  inferInstanceAs (Decidable (_ > _))

-- Tournament field construction ---------------------------------------------

/-- One participant dictionary of `_simulate_tournament` before the cut:
`idx` is its position in the `participants` list (Python marks entries
through object identity; the index plays that role here). -/
structure Entrant where
  idx : Nat
  raw_rounds : List Int
  is_player : Bool
  season_player : Option SeasonPlayer
deriving DecidableEq, Repr

/-- `_build_ai_entry`: four AI round scores, each the clamp to [60, 96] of
the modelled Gaussian draw for that round. -/
def build_ai_entry (idx : Nat) (sp : SeasonPlayer) (draws : Nat → Int) : Entrant :=
  { idx := idx
    raw_rounds := (List.range roundsN).map (fun r => max 60 (min 96 (draws r)))
    is_player := false
    season_player := some sp }

/-- `_generate_player_rounds`: four human round scores, each the clamp to
[60, 95] of the modelled Gaussian draw for that round. -/
def generate_player_rounds (draws : Nat → Int) : List Int :=
  (List.range roundsN).map (fun r => max 60 (min 95 (draws r)))

/-- The field built at the top of `_simulate_tournament`: the first
`field_size - (1 if include_player else 0)` roster players as AI entrants,
then the human entrant when included. -/
def build_field (players : List SeasonPlayer) (include_player : Bool) (o : Oracle) :
    List Entrant :=
  let ai_slots := field_size - (if include_player then 1 else 0)
  let ai_pool := players.take ai_slots
  let ais := ai_pool.enum.map (fun p => build_ai_entry p.1 p.2 (o.aiDraws p.1))
  if include_player then
    ais ++ [{ idx := ais.length
              raw_rounds := generate_player_rounds o.playerDraws
              is_player := true
              season_player := none }]
  else ais

/-- `entry["first_two"] = sum(rounds_scores[:2])`. -/
def first_two (e : Entrant) : Int := (e.raw_rounds.take 2).sum

/-- `entry["total_raw"] = sum(rounds_scores)`. -/
def total_raw (e : Entrant) : Int := e.raw_rounds.sum

/-- `rounds_scores[i]` (the source only indexes positions that exist). -/
def rget (e : Entrant) (i : Nat) : Int := e.raw_rounds.getD i 0

/-- The cut sort key `(item["first_two"], item["raw_rounds"][1],
item["raw_rounds"][0])`. -/
def cut_key (e : Entrant) : Int × Int × Int := (first_two e, rget e 1, rget e 0)

/-- Lexicographic order on integer triples, the order Python's tuple
comparison induces on sort keys. -/
def lex3 (x y : Int × Int × Int) : Prop :=
  x.1 < y.1 ∨ (x.1 = y.1 ∧ (x.2.1 < y.2.1 ∨ (x.2.1 = y.2.1 ∧ x.2.2 ≤ y.2.2)))

instance : DecidableRel lex3 := fun x y => by unfold lex3; infer_instance

theorem lex3_total (x y : Int × Int × Int) : lex3 x y ∨ lex3 y x := by
  unfold lex3; omega

theorem lex3_trans {x y z : Int × Int × Int} (h1 : lex3 x y) (h2 : lex3 y z) : lex3 x z := by
  unfold lex3 at *; omega

/-- The comparison of the cut sort. -/
def cutLE (a b : Entrant) : Prop := lex3 (cut_key a) (cut_key b)

instance : DecidableRel cutLE := fun a b => by unfold cutLE; infer_instance

/-- `cut_order = sorted(participants, key=...)`: the field stably sorted
ascending by the cut key. -/
def cut_order (P : List Entrant) : List Entrant := List.insertionSort cutLE P

/-- The indices of the entrants the loop `entry["made_cut"] = idx < cut_count`
marks as having made the cut: the first `cut_count` positions of the cut
order. -/
def made_cut_idxs (P : List Entrant) : List Nat :=
  ((cut_order P).take cut_count).map Entrant.idx

/-- Whether an entrant is marked `made_cut` (marking through object
identity in Python, through the participant index here). -/
def made_cut (P : List Entrant) (e : Entrant) : Bool :=
  decide (e.idx ∈ made_cut_idxs P)

/-- A participant dictionary after the post-cut field assignments. -/
structure ProcessedEntrant where
  idx : Nat
  raw_rounds : List Int
  is_player : Bool
  season_player : Option SeasonPlayer
  made_cut : Bool
  display_rounds : List (Option Int)
  rounds_played : Nat
  total_played : Int
  final_total : Int
  tie_break : Int
deriving DecidableEq, Repr

/-- The per-entrant body of the post-cut loop of `_simulate_tournament`:
a cut-made entrant keeps its four rounds and raw total; any other entrant
displays only rounds 1 and 2, and its final-ranking total is its two-round
total plus the fixed 400-stroke penalty. -/
def process_entry (mc : Bool) (e : Entrant) : ProcessedEntrant :=
  if mc then
    { idx := e.idx, raw_rounds := e.raw_rounds, is_player := e.is_player
      season_player := e.season_player, made_cut := true
      display_rounds := e.raw_rounds.map some
      rounds_played := roundsN
      total_played := total_raw e
      final_total := total_raw e
      tie_break := rget e 3 }
  else
    { idx := e.idx, raw_rounds := e.raw_rounds, is_player := e.is_player
      season_player := e.season_player, made_cut := false
      display_rounds := (e.raw_rounds.take 2).map some ++ [none, none]
      rounds_played := 2
      total_played := first_two e
      final_total := first_two e + 400
      tie_break := rget e 1 }

/-- The whole post-cut loop over `participants`. -/
def process_field (P : List Entrant) : List ProcessedEntrant :=
  P.map (fun e => process_entry (made_cut P e) e)

/-- The final sort key `(item["final_total"], item["tie_break"],
item["raw_rounds"][0])`. -/
def final_key (pe : ProcessedEntrant) : Int × Int × Int :=
  (pe.final_total, pe.tie_break, pe.raw_rounds.getD 0 0)

/-- The comparison of the final-ranking sort. -/
def finalLE (a b : ProcessedEntrant) : Prop := lex3 (final_key a) (final_key b)

instance : DecidableRel finalLE := fun a b => by unfold finalLE; infer_instance

/-- `final_order = sorted(participants, key=...)` over the processed
field. -/
def final_order (P : List Entrant) : List ProcessedEntrant :=
  List.insertionSort finalLE (process_field P)

-- Reward schedules -----------------------------------------------------------

/-- The share computation of `_prize_for_rank`: the explicit
`distribution` dictionary for ranks 1 to 10, then the two
piecewise-linear bands up to rank 80, zero beyond. -/
def share_for_rank (rank : Nat) : ℚ :=
  if rank = 1 then 18 / 100
  else if rank = 2 then 109 / 1000
  else if rank = 3 then 69 / 1000
  else if rank = 4 then 49 / 1000
  else if rank = 5 then 41 / 1000
  else if rank = 6 then 36 / 1000
  else if rank = 7 then 33 / 1000
  else if rank = 8 then 31 / 1000
  else if rank = 9 then 29 / 1000
  else if rank = 10 then 27 / 1000
  else if rank ≤ 30 then max (15 / 1000) (26 / 1000 - (6 / 10000) * ((rank : ℚ) - 10))
  else if rank ≤ 80 then max (4 / 1000) (14 / 1000 - (18 / 100000) * ((rank : ℚ) - 30))
  else 0

/-- `_prize_for_rank`: the rank's share of the purse, truncated to an
integer by `int(...)`. -/
def prize_for_rank (rank : Nat) (purse : Int) : Int :=
  pyTrunc ((purse : ℚ) * share_for_rank rank)

/-- `_points_for_rank`. -/
def points_for_rank (rank : Nat) : Int :=
  if rank = 1 then 500
  else if rank = 2 then 320
  else if rank = 3 then 230
  else if rank = 4 then 180
  else if rank = 5 then 160
  else if rank ≤ 10 then 140 - ((rank : Int) - 6) * 10
  else if rank ≤ 25 then 90 - ((rank : Int) - 11) * 4
  else if rank ≤ 80 then max 5 (34 - ((rank : Int) - 26))
  else 0

/-- `_rank_outcome`: prize, reputation gain, position label and points for
one final placement. -/
def rank_outcome (rank : Nat) (mc : Bool) (purse : Int) (base_rep : Int) :
    Int × Int × String × Int :=
  let prize := prize_for_rank rank purse
  let points := points_for_rank rank
  if rank = 1 then (prize, base_rep + 2, "1er", points)
  else if rank = 2 then (prize, base_rep + 1, "2e", points)
  else if rank ≤ 5 then (prize, base_rep, "Top 5", points)
  else if rank ≤ 25 then (prize, max 1 (base_rep - 1), "Top 25", points)
  else if mc ∧ rank ≤ cut_count then (prize, max 0 (base_rep - 2), "Top 80", points)
  else (prize, -2, "MC", points)

/-- A participant dictionary after the placement loop has attached
`rank`, `prize`, `reputation_gain`, `position_label` and `points`. -/
structure RankedEntrant extends ProcessedEntrant where
  rank : Nat
  prize : Int
  reputation_gain : Int
  position_label : String
  points : Int
deriving DecidableEq, Repr

/-- The placement loop `for placement, entry in enumerate(final_order, 1)`
of `_simulate_tournament`. -/
def assign_outcomes (fo : List ProcessedEntrant) (purse base_rep : Int) :
    List RankedEntrant :=
  fo.enum.map (fun p =>
    let out := rank_outcome (p.1 + 1) p.2.made_cut purse base_rep
    { toProcessedEntrant := p.2
      rank := p.1 + 1
      prize := out.1
      reputation_gain := out.2.1
      position_label := out.2.2.1
      points := out.2.2.2 })

-- Round-expectation formulas --------------------------------------------------

/-- `_player_round_expectation`. Its value parameterizes only the mean of
the Gaussian draws the `Oracle` models, so nothing downstream consumes it;
it is embedded for completeness of the translation. -/
def player_round_expectation (g : Golfer) (t : Tournament) : ℚ :=
  let skills := if g.skills = [] then [("generic", (50 : Int))] else g.skills
  let values := skills.map Prod.snd
  let average_skill : ℚ := ((values.sum : Int) : ℚ) / (values.length : ℚ)
  let peak_skill : ℚ := ((values.foldr max 0 : Int) : ℚ)
  let floor_skill : ℚ := ((values.foldr min (values.headD 0) : Int) : ℚ)
  let skill_adjust := (average_skill - 50) * (7 / 100)
  let specialty_bonus := max 0 (peak_skill - average_skill) * (3 / 100)
  let weakness_penalty := max 0 (average_skill - floor_skill) * (15 / 1000)
  let motivation_bonus := ((g.motivation : ℚ) - 50) * (4 / 100)
  let form_bonus := ((g.form : ℚ) - 50) * (3 / 100)
  let fatigue_penalty := (g.fatigue_physical : ℚ) * (25 / 1000) + (g.fatigue_mental : ℚ) * (3 / 100)
  let difficulty_penalty := (t.difficulty - 1 / 2) * (35 / 10)
  let expected := (par_per_round : ℚ) + difficulty_penalty - skill_adjust - specialty_bonus
    - motivation_bonus - form_bonus + weakness_penalty + fatigue_penalty
  max 64 (min 85 expected)

/-- `_ai_round_expectation`, with the `gauss(0, 0.6)` form variance as an
explicit argument; like `player_round_expectation` it parameterizes only
the modelled Gaussian draws. -/
def ai_round_expectation (sp : SeasonPlayer) (t : Tournament) (form_variance : ℚ) : ℚ :=
  let skill_adjust := (sp.base_skill - 55) * (8 / 100)
  let difficulty_penalty := (t.difficulty - 1 / 2) * 3
  max 65 (min 88 ((par_per_round : ℚ) + difficulty_penalty - skill_adjust + form_variance))

-- Season bookkeeping ----------------------------------------------------------

/-- `_update_player_stats`. -/
def update_player_stats (pe : RankedEntrant) (stats : PlayerSeasonStats) :
    PlayerSeasonStats :=
  { stats with
    events_played := stats.events_played + 1
    cuts_made := stats.cuts_made + (if pe.made_cut then 1 else 0)
    wins := stats.wins + (if pe.position_label = "1er" then 1 else 0)
    earnings := stats.earnings + pe.prize
    points := stats.points + pe.points
    last_result := some pe.position_label }

/-- `_update_ai_stats`: each roster player whose entrant appears in the
final order (the AI entrant whose field index is the player's roster
index) accumulates its outcome. -/
def update_ai_stats (ranked : List RankedEntrant) (players : List SeasonPlayer) :
    List SeasonPlayer :=
  players.mapIdx (fun i sp =>
    match ranked.find? (fun re => !re.is_player && re.idx == i) with
    | some re =>
      { sp with
        events_played := sp.events_played + 1
        cuts_made := sp.cuts_made + (if re.made_cut then 1 else 0)
        wins := sp.wins + (if re.rank = 1 then 1 else 0)
        earnings := sp.earnings + re.prize
        points := sp.points + re.points
        last_result := some re.position_label }
    | none => sp)

/-- `_user_average_skill`. -/
def user_average_skill (g : Golfer) : ℚ :=
  let skills := if g.skills = [] then [("generic", (52 : Int))] else g.skills
  ((skills.map Prod.snd).sum : ℚ) / (max 1 skills.length : ℚ)

/-- `_generate_season_players` of the engine: players `P{idx:03d}` for
`idx in range(start, start + count)`, each with a base skill clamped to
[40, 70] around the user's average skill plus the modelled `gauss(0, 4.0)`
draw. -/
def generate_season_players (o : Oracle) (count : Nat) (start : Nat) (avg_skill : ℚ) :
    List SeasonPlayer :=
  (List.range count).map (fun k =>
    let idx := start + k
    { player_id := "P" ++ pad3 idx
      name := "Pro " ++ pad3 idx
      base_skill := max 40 (min 70 (avg_skill + o.rosterDraws idx)) })

/-- `_ensure_season_players`: lazily grow the persistent roster to the
target of 199, never shrinking it. -/
def ensure_season_players (o : Oracle) (st : SimulationState) : SimulationState :=
  let target : Nat := 199
  if st.season_players = [] then
    { st with season_players :=
        generate_season_players o target 1 (user_average_skill st.golfer) }
  else if st.season_players.length < target then
    let extra := generate_season_players o (target - st.season_players.length)
      (st.season_players.length + 1) (user_average_skill st.golfer)
    { st with season_players := st.season_players ++ extra }
  else st

/-- `_ensure_player_stats`: create the user's stat record on first use. -/
def ensure_player_stats (st : SimulationState) : SimulationState × PlayerSeasonStats :=
  match st.player_stats with
  | some stats => (st, stats)
  | none =>
    let stats : PlayerSeasonStats := { player_id := "USER" }
    ({ st with player_stats := some stats }, stats)

/-- The descending stable-sort comparison `key=(points, earnings),
reverse=True` of `_build_season_rankings`. -/
def rankingGE (a b : RankingEntry) : Prop :=
  b.points < a.points ∨ (b.points = a.points ∧ b.earnings ≤ a.earnings)

instance : DecidableRel rankingGE := fun a b => by unfold rankingGE; infer_instance

/-- `_build_season_rankings`: the user's row followed by one row per
roster player, stably sorted descending by (points, earnings), with dense
1-based ranks attached; ensures the roster and the user stats on the way
(both of which mutate the state). -/
def build_season_rankings (o : Oracle) (st : SimulationState) :
    SimulationState × List RankingEntry :=
  let ps := ensure_player_stats st
  let st := ps.1
  let stats := ps.2
  let user_row : RankingEntry :=
    { player_id := stats.player_id, name := st.golfer.name
      earnings := stats.earnings, points := stats.points
      events := stats.events_played, cuts := stats.cuts_made, wins := stats.wins
      last_result := stats.last_result.getD "-", is_user := true }
  let st := ensure_season_players o st
  let rows := user_row :: st.season_players.map (fun p =>
    { player_id := p.player_id, name := p.name
      earnings := p.earnings, points := p.points
      events := p.events_played, cuts := p.cuts_made, wins := p.wins
      last_result := p.last_result.getD "-", is_user := false })
  let sorted := List.insertionSort rankingGE rows
  (st, sorted.mapIdx (fun i row => { row with rank := i + 1 }))

/-- `self.state.season_rankings = self._build_season_rankings()` as one
state transformer. -/
def rebuild_rankings (o : Oracle) (st : SimulationState) : SimulationState :=
  let br := build_season_rankings o st
  { br.1 with season_rankings := br.2 }

-- Message helpers -------------------------------------------------------------

/-- `_format_relative_score`. -/
def format_relative_score (delta : Int) : String :=
  if delta > 0 then "+" ++ toString delta
  else if delta < 0 then toString delta
  else "E"

/-- `_format_round_summary`. -/
def format_round_summary (rounds : List (Option Int)) (par : Int) : String :=
  let segments := rounds.enum.map (fun p =>
    match p.2 with
    | none => "R" ++ toString (p.1 + 1) ++ " --"
    | some score =>
      "R" ++ toString (p.1 + 1) ++ " " ++ toString score ++ " (" ++
        format_relative_score (score - par) ++ ")")
  "Scores: " ++ String.intercalate ", " segments ++ "."

/-- `_augment_tournament_message`. -/
def augment_tournament_message (base : String) (entry_fee net_money : Int) : String :=
  if entry_fee ≤ 0 then base
  else base ++ " Frais d\x27inscription " ++ toString entry_fee ++ " crédits. " ++
    "Résultat net " ++ fmtSigned net_money ++ " crédits."

/-- `_add_result_to_message`. -/
def add_result_to_message (base : String) (position : String) : String :=
  if position = "" then base
  else if base.endsWith "." then base ++ " Résultat: " ++ position ++ "."
  else base ++ "." ++ (if base.endsWith " " then "" else " ") ++ "Résultat: " ++ position ++ "."

/-- `_append_round_summary`. -/
def append_round_summary (base : String) (summary : String) : String :=
  if summary = "" then base
  else base ++ (if base.endsWith "." then " " else ". ") ++ summary

-- Tournament-derived golfer adjustments ---------------------------------------

/-- `_compute_motivation_from_tournament`. -/
def compute_motivation_from_tournament (net_money reputation_gain : Int)
    (rules : TournamentRules) : Int :=
  let motivation_per_1000 := rules.motivation_per_1000.getD (6 / 10)
  let loss_penalty := rules.motivation_loss_on_miss.getD 6
  let reputation_factor := rules.motivation_per_reputation.getD (1 / 2)
  if net_money > 0 then
    pyTrunc ((net_money : ℚ) * motivation_per_1000 / 1000) +
      pyTrunc ((max reputation_gain 0 : Int) * reputation_factor)
  else -loss_penalty

/-- `_apply_tournament_skill_decay`: every strictly positive skill loses a
random 1-3 percent (at least one point, floored at 0); returns the new
skill map and the per-skill change map in iteration order (the
`randint(1, 3)` draw for the `i`-th skill comes from the oracle). -/
def apply_tournament_skill_decay (o : Oracle) (skills : List (String × Int)) :
    List (String × Int) × List (String × Int) :=
  let processed : List ((String × Int) × Option (String × Int)) := skills.enum.map (fun p =>
    let value := p.2.2
    if value ≤ 0 then ((p.2.1, value), none)
    else
      let percent := o.decayPercents p.1
      let reduction := max 1 (pyRound ((value : ℚ) * (percent : ℚ) / 100))
      let new_value := max 0 (value - reduction)
      ((p.2.1, new_value), some (p.2.1, new_value - value)))
  (processed.map Prod.fst, processed.filterMap Prod.snd)

-- The tournament resolver ------------------------------------------------------

/-- The dictionary `_simulate_tournament` returns (the without-human path
fills only `include_player`, `message`, `final_order` and `winner`;
unused fields keep their defaults, mirroring absent dictionary keys). -/
structure SimOutcome where
  include_player : Bool
  prize_money : Int := 0
  reputation_gain : Int := 0
  position : String := ""
  missed_cut : Bool := false
  performance : ℚ := 0
  round_summary : String := ""
  round_scores : List (Option Int) := []
  total_strokes : Int := 0
  points : Int := 0
  message : String := ""
  winner : String := ""
  final_order : List RankedEntrant := []
deriving DecidableEq, Repr

/-- The placement-tier message of the with-human path of
`_simulate_tournament`. -/
def player_base_message (t : Tournament) (position : String) (total_played : Int) : String :=
  let rel4 := format_relative_score (total_played - par_per_round * 4)
  if position = "1er" then
    "Victoire au " ++ t.name ++ " avec " ++ toString total_played ++ " coups (" ++ rel4 ++ ")."
  else if position = "2e" then
    "Podium au " ++ t.name ++ " avec " ++ toString total_played ++ " coups (" ++ rel4 ++ ")."
  else if position = "Top 5" then
    "Top 5 au " ++ t.name ++ ". Total " ++ toString total_played ++ " (" ++ rel4 ++ ")."
  else if position = "Top 25" then
    "Belle prestation au " ++ t.name ++ ". Total " ++ toString total_played ++ " (" ++ rel4 ++ ")."
  else if position = "Top 80" then
    "Week-end compliqué mais cut franchi au " ++ t.name ++ ". Total " ++
      toString total_played ++ " (" ++ rel4 ++ ")."
  else
    "Coupe manquée au " ++ t.name ++ " après deux tours (" ++
      format_relative_score (total_played - par_per_round * 2) ++ ")."

/-- `_simulate_tournament`: build the field, apply the cut, rank, assign
outcomes, update the player's and the AI competitors' season stats and
rebuild the rankings; returns the mutated state and the outcome
dictionary. -/
def simulate_tournament (o : Oracle) (t : Tournament) (include_player : Bool)
    (st : SimulationState) : SimulationState × SimOutcome :=
  let st := ensure_season_players o st
  let P := build_field st.season_players include_player o
  let ranked := assign_outcomes (final_order P) t.purse t.reputation_reward
  let winner_name :=
    match ranked.head? with
    | some fe =>
      match fe.season_player with
      | some sp => sp.name
      | none => "un adversaire"
    | none => "un adversaire"
  if include_player then
    match ranked.find? (fun re => re.is_player) with
    | some pe =>
      let rank := pe.rank
      let percentile : ℚ := 1 - ((rank : ℚ) - 1) / ((field_size : ℚ) - 1)
      let position := pe.position_label
      let round_summary := format_round_summary pe.display_rounds par_per_round
      let base_message := player_base_message t position pe.total_played
      let ps := ensure_player_stats st
      let st := { ps.1 with player_stats := some (update_player_stats pe ps.2) }
      let st := { st with season_players := update_ai_stats ranked st.season_players }
      let st := rebuild_rankings o st
      (st,
       { include_player := true
         prize_money := pe.prize
         reputation_gain := pe.reputation_gain
         position := position
         missed_cut := !pe.made_cut
         performance := pyRound2 (percentile * 100)
         round_summary := round_summary
         round_scores := pe.display_rounds
         total_strokes := pe.total_played
         points := pe.points
         message := base_message
         final_order := ranked })
    | none =>
      -- unreachable: the with-human field always contains the human entrant
      (st, { include_player := true })
  else
    let st := { st with season_players := update_ai_stats ranked st.season_players }
    let st := rebuild_rankings o st
    (st,
     { include_player := false
       message := t.name ++ " disputé sans vous. Victoire de " ++ winner_name ++ "."
       winner := winner_name
       final_order := ranked })

-- Ledger and handlers ----------------------------------------------------------

/-- `_append_ledger`: append, then keep only the last 50 entries. -/
def append_ledger (ledger : List LedgerEntry) (entry : LedgerEntry) : List LedgerEntry :=
  lastN 50 (ledger ++ [entry])

/-- `random.choice(list(self.state.golfer.skills.keys()))`, the pick
selected by the oracle index (the source raises IndexError on an empty
skill map; the empty case here returns a placeholder and is exercised by
no claim). -/
def choose_skill (o : Oracle) (skills : List (String × Int)) : String :=
  let keys := skills.map Prod.fst
  keys.getD (o.choiceIdx % max 1 keys.length) ""

/-- `_handle_training`. -/
def handle_training (cfg : Config) (o : Oracle) (payload : Payload)
    (st : SimulationState) : SimulationState :=
  let rules := cfg.training
  let skill :=
    match payload.skill with
    | some s => if s = "" then choose_skill o st.golfer.skills else s
    | none => choose_skill o st.golfer.skills
  let skill_increase := rules.skill_increase.getD 2
  let g := st.golfer
  let g := { g with skills := setSkill g.skills skill (getSkill g.skills skill + skill_increase) }
  let physical_change := rules.physical_fatigue.getD (rules.fatigue.getD 10)
  let mental_change := rules.mental_fatigue.getD (max (Int.fdiv physical_change 2) 0)
  let cost := rules.cost.getD 0
  let g := { g with fatigue_physical := bounded_fatigue (g.fatigue_physical + physical_change) }
  let g := { g with fatigue_mental := bounded_fatigue (g.fatigue_mental + mental_change) }
  let g := { g with money := g.money - cost }
  let g := { g with form := min 100 (g.form + 1) }
  let entry : LedgerEntry :=
    { week := st.season.current_week
      action := "Entraînement"
      description := "Séance de travail sur " ++ skill
      money_delta := -cost
      fatigue_physical_delta := physical_change
      fatigue_mental_delta := mental_change
      reputation_delta := 0
      motivation_delta := 0
      skill_changes := [(skill, skill_increase)] }
  { st with golfer := g
            ledger := append_ledger st.ledger entry
            last_message := some ("Entraînement effectué sur " ++ skill ++ ". Compétence +" ++
              toString skill_increase ++ ", fatigue physique +" ++ toString physical_change ++
              ", fatigue mentale +" ++ toString mental_change ++ ".") }

/-- `_handle_rest`. -/
def handle_rest (cfg : Config) (st : SimulationState) : SimulationState :=
  let rules := cfg.rest
  let physical_recovery := rules.physical_recovery.getD (rules.fatigue_recovery.getD 15)
  let mental_recovery := rules.mental_recovery.getD (Int.fdiv physical_recovery 2)
  let form_gain := rules.form_gain.getD 7
  let previous_physical := st.golfer.fatigue_physical
  let previous_mental := st.golfer.fatigue_mental
  let g := st.golfer
  let g := { g with fatigue_physical := bounded_fatigue (previous_physical - physical_recovery) }
  let g := { g with fatigue_mental := bounded_fatigue (previous_mental - mental_recovery) }
  let g := { g with form := min 100 (g.form + form_gain) }
  let entry : LedgerEntry :=
    { week := st.season.current_week
      action := "Repos"
      description := "Semaine de repos"
      money_delta := 0
      fatigue_physical_delta := g.fatigue_physical - previous_physical
      fatigue_mental_delta := g.fatigue_mental - previous_mental
      reputation_delta := 0
      motivation_delta := 0 }
  { st with golfer := g
            ledger := append_ledger st.ledger entry
            last_message := some ("Repos bien mérité. Fatigue physique " ++
              toString previous_physical ++ "->" ++ toString g.fatigue_physical ++
              ", fatigue mentale " ++ toString previous_mental ++ "->" ++
              toString g.fatigue_mental ++ ", forme +" ++ toString form_gain ++ ".") }

/-- `_handle_agent_chat`. -/
def handle_agent_chat (cfg : Config) (payload : Payload) (st : SimulationState) :
    SimulationState :=
  let rules := cfg.agent_chat
  let motivation_delta := payload.motivation_delta.getD (rules.motivation_boost.getD 6)
  let mental_recovery := payload.mental_recovery.getD (rules.mental_recovery.getD 5)
  let am := adjust_motivation motivation_delta st.golfer
  let g := am.1
  let actual_motivation_delta := am.2
  let previous_mental := g.fatigue_mental
  let g := { g with fatigue_mental := bounded_fatigue (previous_mental - mental_recovery) }
  let mental_delta := g.fatigue_mental - previous_mental
  let entry : LedgerEntry :=
    { week := st.season.current_week
      action := "Discussion"
      description := "Échange avec l\x27agent"
      money_delta := 0
      fatigue_physical_delta := 0
      fatigue_mental_delta := mental_delta
      reputation_delta := 0
      motivation_delta := actual_motivation_delta }
  { st with golfer := g
            ledger := append_ledger st.ledger entry
            last_message := some ("Discussion avec l\x27agent. Motivation " ++
              (if 0 ≤ actual_motivation_delta then "+" else "") ++
              toString actual_motivation_delta ++ ", fatigue mentale " ++
              toString previous_mental ++ "->" ++ toString g.fatigue_mental ++ ".") }

/-- `_handle_tournament`; the second component reports whether
`_tournament_processed` was set. -/
def handle_tournament (cfg : Config) (o : Oracle) (st : SimulationState) :
    SimulationState × Bool :=
  let rules := cfg.tournament
  let week := st.season.current_week
  match st.season.lookup_tournament week with
  | none =>
    let entry : LedgerEntry :=
      { week := week
        action := "Tournoi"
        description := "Aucun tournoi disputé"
        money_delta := 0
        fatigue_physical_delta := 0
        fatigue_mental_delta := 0
        reputation_delta := 0
        motivation_delta := 0 }
    ({ st with last_message := some "Aucun tournoi prévu cette semaine."
               last_tournament_result := none
               ledger := append_ledger st.ledger entry }, false)
  | some t =>
    let physical_fatigue := rules.physical_fatigue.getD (rules.fatigue.getD 18)
    let mental_fatigue := rules.mental_fatigue.getD (max (Int.fdiv physical_fatigue 2) 0)
    let g := st.golfer
    let g := { g with fatigue_physical := bounded_fatigue (g.fatigue_physical + physical_fatigue) }
    let g := { g with fatigue_mental := bounded_fatigue (g.fatigue_mental + mental_fatigue) }
    let entry_fee := max (t.entry_fee.getD (rules.entry_fee.getD 0)) 0
    let g := { g with money := g.money - entry_fee }
    let st := { st with golfer := g }
    let sim := simulate_tournament o t true st
    let st := sim.1
    let simulation := sim.2
    let prize_money := simulation.prize_money
    let reputation_gain := simulation.reputation_gain
    let message := simulation.message
    let g := st.golfer
    let g := { g with money := g.money + prize_money }
    let net_money := prize_money - entry_fee
    let g := { g with reputation := max 0 (g.reputation + reputation_gain) }
    let g := { g with form := min 100 (g.form + max reputation_gain 0) }
    let form_penalty_value := min 5 (max 0 g.form)
    let g := if form_penalty_value ≠ 0 then { g with form := max 0 (g.form - form_penalty_value) } else g
    let motivation_delta := compute_motivation_from_tournament net_money reputation_gain rules
    let am := adjust_motivation motivation_delta g
    let g := am.1
    let actual_motivation_delta := am.2
    let message := if actual_motivation_delta ≠ 0 then
        message ++ " Motivation " ++ (if actual_motivation_delta > 0 then "+" else "") ++
          toString actual_motivation_delta ++ "."
      else message
    let message := if form_penalty_value ≠ 0 then
        message ++ " Forme -" ++ toString form_penalty_value ++ "."
      else message
    let final_message := augment_tournament_message message entry_fee net_money
    let final_message := add_result_to_message final_message simulation.position
    let final_message := append_round_summary final_message simulation.round_summary
    let decay := apply_tournament_skill_decay o g.skills
    let skill_decay := decay.2
    let g := { g with skills := decay.1 }
    let final_message := if skill_decay ≠ [] then
        final_message ++ " Compétences ajustées: " ++
          String.intercalate ", " (skill_decay.map (fun p => p.1 ++ " " ++ fmtSigned p.2)) ++ "."
      else final_message
    let result_record : TournamentResult :=
      { week := week
        tournament_name := t.name
        position := simulation.position
        missed_cut := simulation.missed_cut
        performance := simulation.performance
        entry_fee := entry_fee
        prize_money := prize_money
        net_money := net_money
        reputation_delta := reputation_gain
        motivation_delta := actual_motivation_delta
        message := final_message
        round_scores := simulation.round_scores }
    let entry : LedgerEntry :=
      { week := week
        action := "Tournoi"
        description := final_message
        money_delta := net_money
        fatigue_physical_delta := physical_fatigue
        fatigue_mental_delta := mental_fatigue
        reputation_delta := reputation_gain
        motivation_delta := actual_motivation_delta
        skill_changes := skill_decay }
    ({ st with golfer := g
               last_tournament_result := some result_record
               season_results := st.season_results ++ [result_record]
               ledger := append_ledger st.ledger entry
               last_message := some final_message }, true)

-- Week advancement and season finalization -------------------------------------

/-- `_process_skipped_tournament`: when the week being left had a
scheduled tournament the human did not play, auto-resolve it without the
human and record an "NP" result. -/
def process_skipped_tournament (o : Oracle) (es : EngineState) : EngineState :=
  if es.tournament_processed then es
  else
    match es.state.season.lookup_tournament es.state.season.current_week with
    | none => es
    | some t =>
      let week := es.state.season.current_week
      let sim := simulate_tournament o t false es.state
      let st := sim.1
      let result := sim.2
      let message := if result.message = "" then t.name ++ " disputé sans vous."
        else result.message
      let summary : TournamentResult :=
        { week := week
          tournament_name := t.name
          position := "NP"
          missed_cut := false
          performance := 0
          entry_fee := 0
          prize_money := 0
          net_money := 0
          reputation_delta := 0
          motivation_delta := 0
          message := message
          round_scores := [none, none, none, none] }
      let st := { st with last_tournament_result := some summary
                          season_results := st.season_results ++ [summary] }
      let st := { st with last_message :=
        match st.last_message with
        | some m => if m ≠ "" then some (m ++ " " ++ message) else some message
        | none => some message }
      { es with state := st, tournament_processed := true }

/-- `_advance_week`. -/
def advance_week (o : Oracle) (es : EngineState) : EngineState :=
  let es := process_skipped_tournament o es
  let st := es.state
  let st :=
    if st.season.current_week ≥ st.season.total_weeks then
      { st with season := { st.season with current_week := st.season.total_weeks + 1 } }
    else
      { st with season := { st.season with current_week := st.season.current_week + 1 } }
  { es with state := st }

/-- The ledger-totals fold of `_finalize_season_summary`: per-action
buckets in first-appearance order, plus the running grand totals. -/
def ledger_totals_step (acc : List (String × LedgerBucket) × Int × Int)
    (entry : LedgerEntry) : List (String × LedgerBucket) × Int × Int :=
  let (buckets, total_gains, total_expenses) := acc
  let delta := entry.money_delta
  let upd : LedgerBucket → LedgerBucket := fun b =>
    if 0 ≤ delta then { b with gains := b.gains + delta, net := b.net + delta }
    else { b with depenses := b.depenses - delta, net := b.net + delta }
  let buckets :=
    if (buckets.find? (fun p => p.1 == entry.action)).isSome then
      buckets.map (fun p => if p.1 == entry.action then (p.1, upd p.2) else p)
    else buckets ++ [(entry.action, upd {})]
  if 0 ≤ delta then (buckets, total_gains + delta, total_expenses)
  else (buckets, total_gains, total_expenses - delta)

/-- `_finalize_season_summary`: a no-op once a summary exists; otherwise
build the summary exactly once from the final rankings, the chronological
result history, the ledger totals and the user's stat snapshot. -/
def finalize_season_summary (o : Oracle) (st : SimulationState) : SimulationState :=
  if st.season_summary.isSome then st
  else
    let br := build_season_rankings o st
    let rankings := br.2
    let st := { br.1 with season_rankings := rankings }
    let byWeek : TournamentResult → TournamentResult → Prop := fun a b => a.week ≤ b.week
    let sorted_results :=
      @List.insertionSort _ byWeek (fun a b => Int.decLe a.week b.week) st.season_results
    let tournaments := sorted_results.map (fun r =>
      { week := r.week
        tournament_name := r.tournament_name
        position := r.position
        message := r.message
        round_scores := r.round_scores
        total_strokes := (r.round_scores.filterMap id).sum
        net_money := r.net_money
        prize_money := r.prize_money : SummaryRow })
    let totals := st.ledger.foldl ledger_totals_step ([], 0, 0)
    let buckets := totals.1
    let total_gains := totals.2.1
    let total_expenses := totals.2.2
    let total_bucket : LedgerBucket :=
      { gains := total_gains, depenses := total_expenses, net := total_gains - total_expenses }
    let ledger_totals := buckets ++ [("TOTAL", total_bucket)]
    let ps := ensure_player_stats st
    let st := ps.1
    let stats := ps.2
    let player_rank := (rankings.find? (fun e => e.is_user)).map RankingEntry.rank
    let summary : SeasonSummary :=
      { rankings := rankings
        tournaments := tournaments
        ledger_totals := ledger_totals
        player := stats
        player_rank := player_rank }
    { st with season_summary := some summary }

-- The dispatcher ----------------------------------------------------------------

/-- The fixed message of the SEASON_OVER guard. -/
def season_over_message : String :=
  "La saison est terminée. Veuillez redémarrer pour continuer."

/-- `perform_action`: the dispatcher of the engine. The first component is
the engine object after the call (its mutations applied, its `saved` log
extended by every state handed to the store); the second is the returned
state, or the `ValueError` message for an unrecognized action kind. -/
def perform_action (cfg : Config) (o : Oracle) (action : String) (payload : Payload)
    (es : EngineState) : EngineState × Except String SimulationState :=
  let skip_advance := payload.skip_advance
  let act := lowerStr action
  let es := { es with tournament_processed := false }
  if season_completed es.state then
    let st := { es.state with last_message := some season_over_message }
    let st := finalize_season_summary o st
    let es := { es with state := st }
    (es, Except.ok es.state)
  else if act = "train" ∨ act = "rest" ∨ act = "tournament" ∨ act = "agent_chat" then
    let es :=
      if act = "train" then { es with state := handle_training cfg o payload es.state }
      else if act = "rest" then { es with state := handle_rest cfg es.state }
      else if act = "tournament" then
        let ht := handle_tournament cfg o es.state
        { es with state := ht.1, tournament_processed := ht.2 }
      else { es with state := handle_agent_chat cfg payload es.state }
    let es := if act ≠ "agent_chat" ∧ ¬skip_advance then advance_week o es else es
    let es :=
      if season_completed es.state then
        let finished_msg := es.state.last_message.getD "" ++ " Saison terminée !"
        let st :=
          if act = "tournament" ∧ es.state.last_message.getD "" ≠ "" then
            { es.state with last_message := some finished_msg }
          else es.state
        { es with state := finalize_season_summary o st }
      else es
    let es := { es with state := rebuild_rankings o es.state }
    let es := { es with saved := es.saved ++ [es.state] }
    (es, Except.ok es.state)
  else
    (es, Except.error ("Action inconnue: " ++ act))

-- Generic lemmas ----------------------------------------------------------------

theorem lastN_length_le (n : Nat) (xs : List α) : (lastN n xs).length ≤ n := by
  simp [lastN]; omega

theorem lastN_nil (n : Nat) : lastN n ([] : List α) = [] := by
  simp [lastN]

theorem lastN_append_lastN (h : List α) (e : α) :
    lastN 50 (lastN 50 h ++ [e]) = lastN 50 (h ++ [e]) := by
  unfold lastN
  rcases le_or_lt h.length 49 with hle | hgt
  · have h1 : h.length - 50 = 0 := by omega
    rw [h1, List.drop_zero]
  · have hlen : (h.drop (h.length - 50) ++ [e]).length - 50 = 1 := by simp; omega
    have hlen2 : (h ++ [e]).length - 50 = h.length - 49 := by
      simp only [List.length_append, List.length_singleton]
      omega
    rw [hlen, hlen2]
    rw [List.drop_append_of_le_length (by simp; omega),
        List.drop_append_of_le_length (by omega),
        List.drop_drop]
    have : h.length - 50 + 1 = h.length - 49 := by omega
    rw [this]

theorem append_ledger_lastN (h : List LedgerEntry) (e : LedgerEntry) :
    append_ledger (lastN 50 h) e = lastN 50 (h ++ [e]) := by
  unfold append_ledger
  exact lastN_append_lastN h e

theorem getLast?_append_ledger (l : List LedgerEntry) (e : LedgerEntry) :
    (append_ledger l e).getLast? = some e := by
  unfold append_ledger lastN
  rw [List.length_append]
  rw [List.drop_append_of_le_length
    (by simp only [List.length_singleton]; omega)]
  exact List.getLast?_concat _

theorem append_ledger_length_le (l : List LedgerEntry) (e : LedgerEntry) :
    (append_ledger l e).length ≤ 50 := lastN_length_le 50 _

-- C1: the cut rule ---------------------------------------------------------------

theorem process_entry_made_cut (mc : Bool) (e : Entrant) :
    (process_entry mc e).made_cut = mc := by cases mc <;> rfl

theorem process_entry_raw (mc : Bool) (e : Entrant) :
    (process_entry mc e).raw_rounds = e.raw_rounds := by cases mc <;> rfl

theorem build_field_length (players : List SeasonPlayer) (b : Bool) (o : Oracle) :
    (build_field players b o).length =
      min (field_size - (if b then 1 else 0)) players.length + (if b then 1 else 0) := by
  cases b <;> simp [build_field]

theorem build_field_idx_map (players : List SeasonPlayer) (b : Bool) (o : Oracle) :
    (build_field players b o).map Entrant.idx =
      List.range (build_field players b o).length := by
  cases b <;>
    simp [build_field, build_ai_entry, List.map_map, Function.comp_def, List.enum_map_fst,
      List.range_succ]

theorem build_field_idx_nodup (players : List SeasonPlayer) (b : Bool) (o : Oracle) :
    ((build_field players b o).map Entrant.idx).Nodup := by
  rw [build_field_idx_map]
  exact List.nodup_range _

theorem cut_order_perm (P : List Entrant) : (cut_order P).Perm P :=
  List.perm_insertionSort _ _

theorem cut_order_sorted (P : List Entrant) : List.Sorted cutLE (cut_order P) := by
  haveI : IsTotal Entrant cutLE := ⟨fun a b => lex3_total _ _⟩
  haveI : IsTrans Entrant cutLE := ⟨fun _ _ _ => lex3_trans⟩
  exact List.sorted_insertionSort cutLE P

theorem made_cut_true_iff (P : List Entrant) (e : Entrant) :
    made_cut P e = true ↔ e.idx ∈ made_cut_idxs P := by
  simp [made_cut]

theorem countP_made_cut (P : List Entrant) (hnd : (P.map Entrant.idx).Nodup) :
    P.countP (fun e => made_cut P e) = min cut_count P.length := by
  have hperm := cut_order_perm P
  rw [← hperm.countP_eq]
  have hco : ((cut_order P).map Entrant.idx).Nodup := ((hperm.map Entrant.idx).nodup_iff).mpr hnd
  have hsplit := List.take_append_drop cut_count (cut_order P)
  have hcnt : (cut_order P).countP (fun e => made_cut P e) =
      (List.take cut_count (cut_order P)).countP (fun e => made_cut P e) +
      (List.drop cut_count (cut_order P)).countP (fun e => made_cut P e) := by
    conv_lhs => rw [← hsplit]
    exact List.countP_append _ _ _
  have h1 : (List.take cut_count (cut_order P)).countP (fun e => made_cut P e) =
      (List.take cut_count (cut_order P)).length := by
    rw [List.countP_eq_length]
    intro e he
    exact (made_cut_true_iff P e).mpr (List.mem_map_of_mem Entrant.idx he)
  have hdisj : ((List.take cut_count (cut_order P)).map Entrant.idx).Disjoint
      (((List.drop cut_count (cut_order P)).map Entrant.idx)) := by
    apply List.disjoint_of_nodup_append
    rw [← List.map_append, hsplit]
    exact hco
  have h2 : (List.drop cut_count (cut_order P)).countP (fun e => made_cut P e) = 0 := by
    rw [List.countP_eq_zero]
    intro e he hmc
    have hidx := (made_cut_true_iff P e).mp hmc
    exact hdisj hidx (List.mem_map_of_mem Entrant.idx he)
  rw [hcnt, h1, h2, List.length_take, hperm.length_eq]
  omega

theorem countP_process_field (P : List Entrant) (hnd : (P.map Entrant.idx).Nodup) :
    (process_field P).countP (fun pe => pe.made_cut) = min cut_count P.length := by
  rw [process_field, List.countP_map]
  have heq : ((fun pe : ProcessedEntrant => pe.made_cut) ∘
      fun e => process_entry (made_cut P e) e) = (fun e => made_cut P e) := by
    funext e
    simp [Function.comp, process_entry_made_cut]
  rw [heq, countP_made_cut P hnd]

/-- C1: in every tournament resolution, with or without the human, every
entrant carries four raw round scores; the cut sort is a permutation of
the field sorted ascending by (two-round total, round-2 score, round-1
score); exactly min(80, field size) entrants are marked cut-made; a
cut-made entrant keeps all four round scores and its raw four-round total;
any other entrant keeps null scores for rounds 3 and 4 and has exactly 400
strokes added to its two-round total for final-ranking purposes, its
realized raw round scores staying unaltered. -/
theorem C1_cut_rule (players : List SeasonPlayer) (b : Bool) (o : Oracle) :
    (∀ e ∈ build_field players b o, e.raw_rounds.length = 4) ∧
    (cut_order (build_field players b o)).Perm (build_field players b o) ∧
    List.Sorted cutLE (cut_order (build_field players b o)) ∧
    (process_field (build_field players b o)).countP (fun pe => pe.made_cut) =
      min 80 (build_field players b o).length ∧
    (∀ pe ∈ process_field (build_field players b o), pe.made_cut = true →
      pe.display_rounds = pe.raw_rounds.map some ∧ pe.final_total = pe.raw_rounds.sum) ∧
    (∀ pe ∈ process_field (build_field players b o), pe.made_cut = false →
      pe.display_rounds = (pe.raw_rounds.take 2).map some ++ [none, none] ∧
      pe.final_total = (pe.raw_rounds.take 2).sum + 400) ∧
    (process_field (build_field players b o)).map (fun pe => pe.raw_rounds) =
      (build_field players b o).map Entrant.raw_rounds := by
  set P := build_field players b o with hP
  refine ⟨?_, cut_order_perm P, cut_order_sorted P, ?_, ?_, ?_, ?_⟩
  · intro e he
    rw [hP] at he
    cases b <;> simp [build_field] at he
    · obtain ⟨p, w, -, rfl⟩ := he
      simp [build_ai_entry, roundsN]
    · rcases he with ⟨p, w, -, rfl⟩ | rfl
      · simp [build_ai_entry, roundsN]
      · simp [generate_player_rounds, roundsN]
  · rw [countP_process_field P (build_field_idx_nodup players b o)]
    rfl
  · intro pe hpe hmc
    rw [process_field] at hpe
    obtain ⟨e, -, rfl⟩ := List.mem_map.mp hpe
    rw [process_entry_made_cut] at hmc
    rw [hmc]
    simp [process_entry, total_raw]
  · intro pe hpe hmc
    rw [process_field] at hpe
    obtain ⟨e, -, rfl⟩ := List.mem_map.mp hpe
    rw [process_entry_made_cut] at hmc
    rw [hmc]
    simp [process_entry, first_two]
  · rw [process_field, List.map_map]
    congr 1
    funext e
    simp [Function.comp, process_entry_raw]

-- C4: the prize schedule ----------------------------------------------------------

/-- The reward schedule exactly as the specification words it: rank-indexed
purse shares 18%, 10.9%, 6.9%, 4.9%, 4.1%, then {3.6, 3.3, 3.1, 2.9,
2.7}% for ranks 6-10, max(1.5%, 2.6% - 0.06%(rank-10)) for 11-30,
max(0.4%, 1.4% - 0.018%(rank-30)) for 31-80, zero beyond. -/
def claimed_share (rank : Nat) : ℚ :=
  if rank = 1 then 18 / 100
  else if rank = 2 then 109 / 1000
  else if rank = 3 then 69 / 1000
  else if rank = 4 then 49 / 1000
  else if rank = 5 then 41 / 1000
  else if rank = 6 then 36 / 1000
  else if rank = 7 then 33 / 1000
  else if rank = 8 then 31 / 1000
  else if rank = 9 then 29 / 1000
  else if rank = 10 then 27 / 1000
  else if 11 ≤ rank ∧ rank ≤ 30 then
    max (15 / 1000) (26 / 1000 - (6 / 10000) * ((rank : ℚ) - 10))
  else if 31 ≤ rank ∧ rank ≤ 80 then
    max (4 / 1000) (14 / 1000 - (18 / 100000) * ((rank : ℚ) - 30))
  else 0

theorem share_eq_claimed (rank : Nat) (h : 1 ≤ rank) :
    share_for_rank rank = claimed_share rank := by
  unfold share_for_rank claimed_share
  rcases le_or_lt rank 10 with h10 | h10
  · interval_cases rank <;> norm_num
  · have e1 : rank ≠ 1 := by omega
    have e2 : rank ≠ 2 := by omega
    have e3 : rank ≠ 3 := by omega
    have e4 : rank ≠ 4 := by omega
    have e5 : rank ≠ 5 := by omega
    have e6 : rank ≠ 6 := by omega
    have e7 : rank ≠ 7 := by omega
    have e8 : rank ≠ 8 := by omega
    have e9 : rank ≠ 9 := by omega
    have e10 : rank ≠ 10 := by omega
    simp only [if_neg e1, if_neg e2, if_neg e3, if_neg e4, if_neg e5, if_neg e6,
      if_neg e7, if_neg e8, if_neg e9, if_neg e10]
    rcases le_or_lt rank 30 with h30 | h30
    · rw [if_pos h30, if_pos ⟨by omega, h30⟩]
    · rw [if_neg (by omega), if_neg (by omega : ¬(11 ≤ rank ∧ rank ≤ 30))]
      rcases le_or_lt rank 80 with h80 | h80
      · rw [if_pos h80, if_pos ⟨by omega, h80⟩]
      · rw [if_neg (by omega), if_neg (by omega : ¬(31 ≤ rank ∧ rank ≤ 80))]

theorem share_for_rank_nonneg (rank : Nat) : 0 ≤ share_for_rank rank := by
  unfold share_for_rank
  rcases le_or_lt rank 10 with h10 | h10
  · interval_cases rank <;> norm_num
  · have k1 : rank ≠ 1 := by omega
    have k2 : rank ≠ 2 := by omega
    have k3 : rank ≠ 3 := by omega
    have k4 : rank ≠ 4 := by omega
    have k5 : rank ≠ 5 := by omega
    have k6 : rank ≠ 6 := by omega
    have k7 : rank ≠ 7 := by omega
    have k8 : rank ≠ 8 := by omega
    have k9 : rank ≠ 9 := by omega
    have k10 : rank ≠ 10 := by omega
    rw [if_neg k1, if_neg k2, if_neg k3, if_neg k4, if_neg k5, if_neg k6, if_neg k7,
      if_neg k8, if_neg k9, if_neg k10]
    rcases le_or_lt rank 30 with h30 | h30
    · rw [if_pos h30]
      exact le_trans (by norm_num) (le_max_left _ _)
    · rw [if_neg (not_le.mpr h30)]
      rcases le_or_lt rank 80 with h80 | h80
      · rw [if_pos h80]
        exact le_trans (by norm_num) (le_max_left _ _)
      · rw [if_neg (not_le.mpr h80)]

theorem pyTrunc_eq_floor {q : ℚ} (h : 0 ≤ q) : pyTrunc q = Int.floor q := by
  unfold pyTrunc
  rw [if_neg (not_lt.mpr h)]

theorem share_for_rank_of_gt_80 (rank : Nat) (h : 80 < rank) : share_for_rank rank = 0 := by
  have m1 : rank ≠ 1 := by omega
  have m2 : rank ≠ 2 := by omega
  have m3 : rank ≠ 3 := by omega
  have m4 : rank ≠ 4 := by omega
  have m5 : rank ≠ 5 := by omega
  have m6 : rank ≠ 6 := by omega
  have m7 : rank ≠ 7 := by omega
  have m8 : rank ≠ 8 := by omega
  have m9 : rank ≠ 9 := by omega
  have m10 : rank ≠ 10 := by omega
  have m30 : ¬ rank ≤ 30 := by omega
  have m80 : ¬ rank ≤ 80 := by omega
  unfold share_for_rank
  rw [if_neg m1, if_neg m2, if_neg m3, if_neg m4, if_neg m5, if_neg m6, if_neg m7,
    if_neg m8, if_neg m9, if_neg m10, if_neg m30, if_neg m80]

theorem prize_for_rank_of_gt_80 (rank : Nat) (purse : Int) (h : 80 < rank) :
    prize_for_rank rank purse = 0 := by
  unfold prize_for_rank
  rw [share_for_rank_of_gt_80 rank h, mul_zero]
  simp [pyTrunc]

theorem rank_outcome_prize (rank : Nat) (mc : Bool) (purse base_rep : Int) :
    (rank_outcome rank mc purse base_rep).1 = prize_for_rank rank purse := by
  unfold rank_outcome
  split_ifs <;> rfl

theorem build_field_raw_bounds (players : List SeasonPlayer) (b : Bool) (o : Oracle) :
    ∀ e ∈ build_field players b o,
      e.raw_rounds.length = 4 ∧ ∀ s ∈ e.raw_rounds, 60 ≤ s ∧ s ≤ 96 := by
  intro e he
  cases b <;> simp [build_field] at he
  · obtain ⟨p, w, -, rfl⟩ := he
    refine ⟨by simp [build_ai_entry, roundsN], ?_⟩
    intro s hs
    simp [build_ai_entry] at hs
    obtain ⟨r, -, rfl⟩ := hs
    constructor <;> simp
  · rcases he with ⟨p, w, -, rfl⟩ | rfl
    · refine ⟨by simp [build_ai_entry, roundsN], ?_⟩
      intro s hs
      simp [build_ai_entry] at hs
      obtain ⟨r, -, rfl⟩ := hs
      constructor <;> simp
    · refine ⟨by simp [generate_player_rounds, roundsN], ?_⟩
      intro s hs
      simp [generate_player_rounds] at hs
      obtain ⟨r, -, rfl⟩ := hs
      constructor <;> simp

theorem sum_four_le {l : List Int} (hlen : l.length = 4) (hb : ∀ s ∈ l, s ≤ 96) :
    l.sum ≤ 384 := by
  rcases l with - | ⟨a, - | ⟨b, - | ⟨c, - | ⟨d, - | e⟩⟩⟩⟩ <;> simp_all
  have ha := hb.1
  have hbb := hb.2.1
  have hc := hb.2.2.1
  have hd := hb.2.2.2
  omega

theorem take_two_sum_ge {l : List Int} (hlen : l.length = 4) (hb : ∀ s ∈ l, 60 ≤ s) :
    120 ≤ (l.take 2).sum := by
  rcases l with - | ⟨a, - | ⟨b, - | ⟨c, - | ⟨d, - | e⟩⟩⟩⟩ <;> simp_all
  have ha := hb.1
  have hbb := hb.2.1
  omega

theorem processed_total_bounds (players : List SeasonPlayer) (b : Bool) (o : Oracle) :
    ∀ pe ∈ process_field (build_field players b o),
      (pe.made_cut = true → pe.final_total ≤ 384) ∧
      (pe.made_cut = false → 520 ≤ pe.final_total) := by
  intro pe hpe
  rw [process_field] at hpe
  obtain ⟨e, he, rfl⟩ := List.mem_map.mp hpe
  obtain ⟨hlen, hbnd⟩ := build_field_raw_bounds players b o e he
  constructor <;> intro hmc <;> rw [process_entry_made_cut] at hmc <;> rw [hmc]
  · simp [process_entry, total_raw]
    exact sum_four_le hlen (fun s hs => (hbnd s hs).2)
  · simp [process_entry, first_two]
    have := take_two_sum_ge hlen (fun s hs => (hbnd s hs).1)
    omega

theorem final_order_perm (P : List Entrant) : (final_order P).Perm (process_field P) :=
  List.perm_insertionSort _ _

theorem final_order_sorted (P : List Entrant) : List.Sorted finalLE (final_order P) := by
  haveI : IsTotal ProcessedEntrant finalLE := ⟨fun a b => lex3_total _ _⟩
  haveI : IsTrans ProcessedEntrant finalLE := ⟨fun _ _ _ => lex3_trans⟩
  exact List.sorted_insertionSort finalLE (process_field P)

theorem finalLE_total_le {a b : ProcessedEntrant} (h : finalLE a b) :
    a.final_total ≤ b.final_total := by
  rcases h with h | ⟨h, -⟩
  · exact le_of_lt h
  · exact le_of_eq h

theorem missed_cut_position_ge (players : List SeasonPlayer) (b : Bool) (o : Oracle) :
    ∀ i (hi : i < (final_order (build_field players b o)).length),
      ((final_order (build_field players b o)).get ⟨i, hi⟩).made_cut = false →
      cut_count ≤ i := by
  intro i hi hmc
  set P := build_field players b o with hPdef
  set fo := final_order P with hfo
  have hperm := final_order_perm P
  have hpair : List.Pairwise finalLE fo := final_order_sorted P
  have hbounds := processed_total_bounds players b o
  have hcnt : fo.countP (fun pe => pe.made_cut) = min cut_count P.length := by
    rw [hperm.countP_eq]
    exact countP_process_field P (build_field_idx_nodup players b o)
  have hlenfo : fo.length = P.length := by
    rw [hperm.length_eq, process_field, List.length_map]
  by_contra hcon
  push_neg at hcon
  have hafter : ∀ j (hj : j < fo.length), i ≤ j → (fo.get ⟨j, hj⟩).made_cut = false := by
    intro j hj hij
    rcases eq_or_lt_of_le hij with rfl | hlt
    · exact hmc
    · by_contra hmade
      rw [Bool.not_eq_false] at hmade
      have hle : finalLE (fo.get ⟨i, hi⟩) (fo.get ⟨j, hj⟩) := by
        have := List.pairwise_iff_getElem.mp hpair i j (by omega) (by omega) hlt
        simpa using this
      have h1 : 520 ≤ (fo.get ⟨i, hi⟩).final_total := by
        have hmem : fo.get ⟨i, hi⟩ ∈ process_field P := hperm.mem_iff.mp (fo.get_mem _ _)
        exact (hbounds _ hmem).2 hmc
      have h2 : (fo.get ⟨j, hj⟩).final_total ≤ 384 := by
        have hmem : fo.get ⟨j, hj⟩ ∈ process_field P := hperm.mem_iff.mp (fo.get_mem _ _)
        exact (hbounds _ hmem).1 hmade
      have := finalLE_total_le hle
      omega
  have hdrop : (fo.drop i).countP (fun pe => pe.made_cut) = 0 := by
    rw [List.countP_eq_zero]
    intro pe hpe hp
    obtain ⟨k, hk, hget⟩ := List.mem_iff_getElem.mp hpe
    rw [List.getElem_drop] at hget
    have hik : i + k < fo.length := by
      have := List.length_drop i fo
      omega
    have := hafter (i + k) hik (by omega)
    rw [List.get_eq_getElem] at this
    rw [hget] at this
    rw [this] at hp
    exact Bool.false_ne_true hp
  have hsplitcnt : fo.countP (fun pe => pe.made_cut) =
      (fo.take i).countP (fun pe => pe.made_cut) +
      (fo.drop i).countP (fun pe => pe.made_cut) := by
    conv_lhs => rw [← List.take_append_drop i fo]
    exact List.countP_append _ _ _
  have htake_le : (fo.take i).countP (fun pe => pe.made_cut) ≤ i := by
    calc (fo.take i).countP (fun pe => pe.made_cut) ≤ (fo.take i).length :=
          List.countP_le_length _
      _ ≤ i := by rw [List.length_take]; omega
  rcases le_or_lt cut_count P.length with hge | hlt
  · have hmin : min cut_count P.length = cut_count := by omega
    omega
  · have hminP : min cut_count P.length = P.length := by omega
    have hall : fo.countP (fun pe => pe.made_cut) = fo.length := by
      rw [hcnt, hminP, hlenfo]
    have hmem : fo.get ⟨i, hi⟩ ∈ fo := fo.get_mem _ _
    have hmade := (List.countP_eq_length).mp hall _ hmem
    simp only [hmc] at hmade
    exact Bool.false_ne_true hmade

/-- C4: the prize paid for final rank r and purse P is the floor of P
times the claimed schedule share (18% for rank 1, 10.9% for rank 2, 6.9%,
4.9%, 4.1%, the 3.6/3.3/3.1/2.9/2.7% ladder for 6-10, the two
piecewise-linear bands with their floors for 11-30 and 31-80), and every
entrant beyond the cut line receives 0 regardless of its numeric rank. -/
theorem C4_prize_schedule :
    (∀ (rank : Nat) (purse : Int), 1 ≤ rank → 0 ≤ purse →
      prize_for_rank rank purse = Int.floor ((purse : ℚ) * claimed_share rank)) ∧
    (∀ (players : List SeasonPlayer) (b : Bool) (o : Oracle) (purse base_rep : Int),
      ∀ re ∈ assign_outcomes (final_order (build_field players b o)) purse base_rep,
        re.made_cut = false → re.prize = 0) := by
  constructor
  · intro rank purse h1 hp
    unfold prize_for_rank
    rw [pyTrunc_eq_floor (mul_nonneg (by exact_mod_cast hp) (share_for_rank_nonneg rank))]
    rw [share_eq_claimed rank h1]
  · intro players b o purse base_rep re hre hmc
    rw [assign_outcomes] at hre
    obtain ⟨⟨i, pe⟩, hmem, rfl⟩ := List.mem_map.mp hre
    simp only at hmc
    have hidx := List.mem_enum_iff_getElem?.mp hmem
    simp only at hidx
    obtain ⟨hilen, hget⟩ := List.getElem?_eq_some.mp hidx
    have hge := missed_cut_position_ge players b o i hilen
      (by rw [List.get_eq_getElem, hget]; exact hmc)
    show (rank_outcome (i + 1) pe.made_cut purse base_rep).1 = 0
    rw [rank_outcome_prize]
    refine prize_for_rank_of_gt_80 _ _ ?_
    unfold cut_count at hge
    omega

/-- Witness for C4: rank 2 with a 1000-credit purse receives the floor of
1000 times the claimed 10.9% share. -/
theorem C4_prize_schedule_witness :
    prize_for_rank 2 1000 = Int.floor ((1000 : ℚ) * claimed_share 2) :=
  C4_prize_schedule.1 2 1000 (by decide) (by decide)

-- Frame lemmas: which state components each transformer leaves unchanged ------

@[simp] theorem ensure_season_players_golfer (o : Oracle) (st : SimulationState) :
    (ensure_season_players o st).golfer = st.golfer := by
  simp only [ensure_season_players]
  split_ifs <;> rfl

@[simp] theorem ensure_season_players_season (o : Oracle) (st : SimulationState) :
    (ensure_season_players o st).season = st.season := by
  simp only [ensure_season_players]
  split_ifs <;> rfl

@[simp] theorem ensure_season_players_ledger (o : Oracle) (st : SimulationState) :
    (ensure_season_players o st).ledger = st.ledger := by
  simp only [ensure_season_players]
  split_ifs <;> rfl

@[simp] theorem ensure_season_players_summary (o : Oracle) (st : SimulationState) :
    (ensure_season_players o st).season_summary = st.season_summary := by
  simp only [ensure_season_players]
  split_ifs <;> rfl

@[simp] theorem ensure_player_stats_golfer (st : SimulationState) :
    (ensure_player_stats st).1.golfer = st.golfer := by
  cases h : st.player_stats <;> simp [ensure_player_stats, h]

@[simp] theorem ensure_player_stats_season (st : SimulationState) :
    (ensure_player_stats st).1.season = st.season := by
  cases h : st.player_stats <;> simp [ensure_player_stats, h]

@[simp] theorem ensure_player_stats_ledger (st : SimulationState) :
    (ensure_player_stats st).1.ledger = st.ledger := by
  cases h : st.player_stats <;> simp [ensure_player_stats, h]

@[simp] theorem ensure_player_stats_summary (st : SimulationState) :
    (ensure_player_stats st).1.season_summary = st.season_summary := by
  cases h : st.player_stats <;> simp [ensure_player_stats, h]

@[simp] theorem ensure_player_stats_players (st : SimulationState) :
    (ensure_player_stats st).1.season_players = st.season_players := by
  cases h : st.player_stats <;> simp [ensure_player_stats, h]

@[simp] theorem build_season_rankings_golfer (o : Oracle) (st : SimulationState) :
    (build_season_rankings o st).1.golfer = st.golfer := by
  simp [build_season_rankings]

@[simp] theorem build_season_rankings_season (o : Oracle) (st : SimulationState) :
    (build_season_rankings o st).1.season = st.season := by
  simp [build_season_rankings]

@[simp] theorem build_season_rankings_ledger (o : Oracle) (st : SimulationState) :
    (build_season_rankings o st).1.ledger = st.ledger := by
  simp [build_season_rankings]

@[simp] theorem build_season_rankings_summary (o : Oracle) (st : SimulationState) :
    (build_season_rankings o st).1.season_summary = st.season_summary := by
  simp [build_season_rankings]

@[simp] theorem rebuild_rankings_golfer (o : Oracle) (st : SimulationState) :
    (rebuild_rankings o st).golfer = st.golfer := by
  simp [rebuild_rankings]

@[simp] theorem rebuild_rankings_season (o : Oracle) (st : SimulationState) :
    (rebuild_rankings o st).season = st.season := by
  simp [rebuild_rankings]

@[simp] theorem rebuild_rankings_ledger (o : Oracle) (st : SimulationState) :
    (rebuild_rankings o st).ledger = st.ledger := by
  simp [rebuild_rankings]

@[simp] theorem rebuild_rankings_summary (o : Oracle) (st : SimulationState) :
    (rebuild_rankings o st).season_summary = st.season_summary := by
  simp [rebuild_rankings]

@[simp] theorem simulate_tournament_golfer (o : Oracle) (t : Tournament) (b : Bool)
    (st : SimulationState) : (simulate_tournament o t b st).1.golfer = st.golfer := by
  cases b <;> simp only [simulate_tournament]
  · simp
  · simp only [if_true]
    split <;> simp

@[simp] theorem simulate_tournament_season (o : Oracle) (t : Tournament) (b : Bool)
    (st : SimulationState) : (simulate_tournament o t b st).1.season = st.season := by
  cases b <;> simp only [simulate_tournament]
  · simp
  · simp only [if_true]
    split <;> simp

@[simp] theorem simulate_tournament_ledger (o : Oracle) (t : Tournament) (b : Bool)
    (st : SimulationState) : (simulate_tournament o t b st).1.ledger = st.ledger := by
  cases b <;> simp only [simulate_tournament]
  · simp
  · simp only [if_true]
    split <;> simp

@[simp] theorem simulate_tournament_summary (o : Oracle) (t : Tournament) (b : Bool)
    (st : SimulationState) :
    (simulate_tournament o t b st).1.season_summary = st.season_summary := by
  cases b <;> simp only [simulate_tournament]
  · simp
  · simp only [if_true]
    split <;> simp

@[simp] theorem finalize_golfer (o : Oracle) (st : SimulationState) :
    (finalize_season_summary o st).golfer = st.golfer := by
  simp only [finalize_season_summary]
  split_ifs <;> simp

@[simp] theorem finalize_season (o : Oracle) (st : SimulationState) :
    (finalize_season_summary o st).season = st.season := by
  simp only [finalize_season_summary]
  split_ifs <;> simp

@[simp] theorem finalize_ledger (o : Oracle) (st : SimulationState) :
    (finalize_season_summary o st).ledger = st.ledger := by
  simp only [finalize_season_summary]
  split_ifs <;> simp

theorem finalize_of_isSome (o : Oracle) (st : SimulationState)
    (h : st.season_summary.isSome) : finalize_season_summary o st = st := by
  simp only [finalize_season_summary]
  rw [if_pos h]

@[simp] theorem process_skipped_golfer (o : Oracle) (es : EngineState) :
    (process_skipped_tournament o es).state.golfer = es.state.golfer := by
  simp only [process_skipped_tournament]
  split_ifs with h
  · rfl
  · split <;> simp

@[simp] theorem process_skipped_ledger (o : Oracle) (es : EngineState) :
    (process_skipped_tournament o es).state.ledger = es.state.ledger := by
  simp only [process_skipped_tournament]
  split_ifs with h
  · rfl
  · split <;> simp

@[simp] theorem process_skipped_season (o : Oracle) (es : EngineState) :
    (process_skipped_tournament o es).state.season = es.state.season := by
  simp only [process_skipped_tournament]
  split_ifs with h
  · rfl
  · split <;> simp

@[simp] theorem process_skipped_summary (o : Oracle) (es : EngineState) :
    (process_skipped_tournament o es).state.season_summary = es.state.season_summary := by
  simp only [process_skipped_tournament]
  split_ifs with h
  · rfl
  · split <;> simp

@[simp] theorem process_skipped_saved (o : Oracle) (es : EngineState) :
    (process_skipped_tournament o es).saved = es.saved := by
  unfold process_skipped_tournament
  split_ifs with h
  · rfl
  · split <;> simp

@[simp] theorem advance_week_golfer (o : Oracle) (es : EngineState) :
    (advance_week o es).state.golfer = es.state.golfer := by
  simp only [advance_week]
  split_ifs <;> simp

@[simp] theorem advance_week_ledger (o : Oracle) (es : EngineState) :
    (advance_week o es).state.ledger = es.state.ledger := by
  simp only [advance_week]
  split_ifs <;> simp

@[simp] theorem advance_week_summary (o : Oracle) (es : EngineState) :
    (advance_week o es).state.season_summary = es.state.season_summary := by
  simp only [advance_week]
  split_ifs <;> simp

@[simp] theorem advance_week_saved (o : Oracle) (es : EngineState) :
    (advance_week o es).saved = es.saved := by
  simp [advance_week]

-- Handler-level lemmas ---------------------------------------------------------

/-- The bounded golfer attributes of the specification: both fatigues,
form and motivation in [0, 100], reputation non-negative. -/
def golfer_bounds (g : Golfer) : Prop :=
  0 ≤ g.fatigue_physical ∧ g.fatigue_physical ≤ 100 ∧
  0 ≤ g.fatigue_mental ∧ g.fatigue_mental ≤ 100 ∧
  0 ≤ g.form ∧ g.form ≤ 100 ∧
  0 ≤ g.motivation ∧ g.motivation ≤ 100 ∧
  0 ≤ g.reputation

instance (g : Golfer) : Decidable (golfer_bounds g) := by
  unfold golfer_bounds
  infer_instance

theorem handle_training_bounds (cfg : Config) (o : Oracle) (p : Payload)
    (st : SimulationState) (h : golfer_bounds st.golfer) :
    golfer_bounds (handle_training cfg o p st).golfer := by
  unfold golfer_bounds at *
  simp [handle_training, bounded_fatigue]
  omega

theorem handle_rest_bounds (cfg : Config) (st : SimulationState)
    (h : golfer_bounds st.golfer) (hfg : 0 ≤ cfg.rest.form_gain.getD 7) :
    golfer_bounds (handle_rest cfg st).golfer := by
  unfold golfer_bounds at *
  simp [handle_rest, bounded_fatigue]
  omega

theorem handle_agent_chat_bounds (cfg : Config) (p : Payload) (st : SimulationState)
    (h : golfer_bounds st.golfer) :
    golfer_bounds (handle_agent_chat cfg p st).golfer := by
  unfold golfer_bounds at *
  simp [handle_agent_chat, adjust_motivation, bounded_fatigue]
  omega

set_option maxHeartbeats 2000000 in
theorem handle_tournament_bounds (cfg : Config) (o : Oracle) (st : SimulationState)
    (h : golfer_bounds st.golfer) :
    golfer_bounds (handle_tournament cfg o st).1.golfer := by
  unfold golfer_bounds at *
  cases hlk : st.season.lookup_tournament st.season.current_week with
  | none =>
    simp [handle_tournament, hlk]
    omega
  | some t =>
    simp only [handle_tournament, hlk, simulate_tournament_golfer, adjust_motivation,
      bounded_fatigue]
    split_ifs <;> dsimp only <;> omega

theorem handle_training_ledger (cfg : Config) (o : Oracle) (p : Payload)
    (st : SimulationState) :
    ∃ e, (handle_training cfg o p st).ledger = append_ledger st.ledger e :=
  ⟨_, rfl⟩

theorem handle_rest_ledger (cfg : Config) (st : SimulationState) :
    ∃ e, (handle_rest cfg st).ledger = append_ledger st.ledger e :=
  ⟨_, rfl⟩

theorem handle_agent_chat_ledger (cfg : Config) (p : Payload) (st : SimulationState) :
    ∃ e, (handle_agent_chat cfg p st).ledger = append_ledger st.ledger e :=
  ⟨_, rfl⟩

set_option maxHeartbeats 2000000 in
theorem handle_tournament_ledger (cfg : Config) (o : Oracle) (st : SimulationState) :
    ∃ e, (handle_tournament cfg o st).1.ledger = append_ledger st.ledger e := by
  cases hlk : st.season.lookup_tournament st.season.current_week with
  | none =>
    simp only [handle_tournament, hlk]
    exact ⟨_, rfl⟩
  | some t =>
    simp only [handle_tournament, hlk, simulate_tournament_ledger]
    exact ⟨_, rfl⟩

-- Concrete fixtures used by witnesses and counterexamples ----------------------

/-- A small golfer within all attribute bounds. -/
def golferW : Golfer :=
  { name := "Test Player", age := 18
    skills := [("driving", 50), ("approach", 50)]
    fatigue_physical := 95, fatigue_mental := 0, form := 50
    money := 1000, reputation := 0, motivation := 50 }

/-- An active two-week season with no scheduled tournaments. -/
def stateW : SimulationState :=
  { golfer := golferW
    season := { current_week := 1, total_weeks := 2, tournaments := [] } }

/-- A terminal-season state whose summary is already set. -/
def stateTerminalW : SimulationState :=
  { golfer := golferW
    season := { current_week := 3, total_weeks := 2, tournaments := [] }
    season_summary := some
      { rankings := [], tournaments := [], ledger_totals := []
        player := { player_id := "USER" }, player_rank := none } }

/-- A training configuration mirroring the repository test fixture. -/
def cfgW : Config :=
  { training := { physical_fatigue := some 10, mental_fatigue := some 6
                  cost := some 100, skill_increase := some 4 } }

/-- A concrete scheduled tournament (difficulty 0, purse 2000). -/
def tournamentW : Tournament :=
  { name := "Test Open", week := 1, difficulty := 0, purse := 2000
    reputation_reward := 3, entry_fee := some 120 }

/-- An active season with `tournamentW` scheduled in the current week. -/
def stateTournamentW : SimulationState :=
  { golfer := golferW
    season := { current_week := 1, total_weeks := 2, tournaments := [tournamentW] } }

-- C5: attribute bounds ----------------------------------------------------------

set_option maxHeartbeats 4000000 in
/-- C5: starting from any state whose golfer attributes satisfy the
bounds, any action (any kind string, any payload, any draws) leaves
fatigue_physical, fatigue_mental, form and motivation in [0, 100] and
reputation non-negative; the configured rest form gain is taken
non-negative, as every configuration surface of the repository has it. -/
theorem C5_attribute_bounds (cfg : Config) (o : Oracle) (a : String) (p : Payload)
    (es : EngineState) (hb : golfer_bounds es.state.golfer)
    (hfg : 0 ≤ cfg.rest.form_gain.getD 7) :
    golfer_bounds (perform_action cfg o a p es).1.state.golfer := by
  simp only [perform_action]
  split_ifs <;>
    simp only [rebuild_rankings_golfer, finalize_golfer, advance_week_golfer] <;>
    first
      | simpa using hb
      | exact handle_training_bounds cfg o p _ hb
      | exact handle_rest_bounds cfg _ hb hfg
      | exact handle_agent_chat_bounds cfg p _ hb
      | exact handle_tournament_bounds cfg o _ hb

/-- Witness for C5: a bounded golfer stays bounded through a rest week. -/
theorem C5_attribute_bounds_witness :
    golfer_bounds (perform_action cfgW {} "rest" {} { state := stateW }).1.state.golfer :=
  C5_attribute_bounds cfgW {} "rest" {} { state := stateW } (by decide) (by decide)

-- C6: unrecognized action kinds --------------------------------------------------

/-- C6: in an active season, an action kind whose lowercased form is none
of train, rest, tournament or agent_chat makes `perform_action` fail with
the ValueError and leaves the career state unchanged (only the transient
`_tournament_processed` flag of the engine object was reset before the
failure). -/
theorem C6_invalid_action (cfg : Config) (o : Oracle) (a : String) (p : Payload)
    (es : EngineState) (hact : ¬ season_completed es.state)
    (hk : lowerStr a ∉ (["train", "rest", "tournament", "agent_chat"] : List String)) :
    perform_action cfg o a p es =
      ({ es with tournament_processed := false },
       Except.error ("Action inconnue: " ++ lowerStr a)) := by
  simp only [List.mem_cons, List.not_mem_nil, or_false, not_or] at hk
  obtain ⟨h1, h2, h3, h4⟩ := hk
  simp [perform_action, hact, h1, h2, h3, h4]

/-- Witness for C6: the kind "fly" is rejected without touching the
state. -/
theorem C6_invalid_action_witness :
    perform_action cfgW {} "fly" {} { state := stateW } =
      ({ state := stateW, tournament_processed := false },
       Except.error ("Action inconnue: " ++ lowerStr "fly")) :=
  C6_invalid_action cfgW {} "fly" {} { state := stateW } (by decide) (by decide)

-- C7: the SEASON_OVER guard ------------------------------------------------------

/-- C7: once the season is terminal and the summary is already set, every
`perform_action` call of any kind only sets the fixed informational
message and re-runs the summary finalization, which is a no-op: the
summary object and every other component (golfer, season, ledger,
season_players, player_stats, season_results, season_rankings) are
unchanged, and nothing is saved. -/
theorem C7_season_over_guard (cfg : Config) (o : Oracle) (a : String) (p : Payload)
    (es : EngineState) (hterm : season_completed es.state)
    (hsum : es.state.season_summary.isSome) :
    perform_action cfg o a p es =
      ({ es with tournament_processed := false
                 state := { es.state with last_message := some season_over_message } },
       Except.ok { es.state with last_message := some season_over_message }) := by
  have hfin : finalize_season_summary o
      { es.state with last_message := some season_over_message } =
      { es.state with last_message := some season_over_message } :=
    finalize_of_isSome o _ (by simpa using hsum)
  simp [perform_action, hterm, hfin]

/-- Witness for C7: a train call on a finished season only sets the
message. -/
theorem C7_season_over_guard_witness :
    perform_action cfgW {} "train" {} { state := stateTerminalW } =
      ({ state := { stateTerminalW with last_message := some season_over_message }
         tournament_processed := false },
       Except.ok { stateTerminalW with last_message := some season_over_message }) :=
  C7_season_over_guard cfgW {} "train" {} { state := stateTerminalW } (by decide) (by decide)

-- C9: the bounded ledger ---------------------------------------------------------

set_option maxHeartbeats 4000000 in
/-- C9: if the ledger is the 50-entry suffix of the append history, it
stays exactly the 50-entry suffix of the extended history after any
action (each action appends at most one entry, dropping the oldest
beyond 50), and its length never exceeds 50. -/
theorem C9_ledger_bound (cfg : Config) (o : Oracle) (a : String) (p : Payload)
    (es : EngineState) (h : List LedgerEntry) (hl : es.state.ledger = lastN 50 h) :
    ∃ app, (perform_action cfg o a p es).1.state.ledger = lastN 50 (h ++ app) ∧
      (perform_action cfg o a p es).1.state.ledger.length ≤ 50 := by
  simp only [perform_action]
  split_ifs <;>
    simp only [rebuild_rankings_ledger, finalize_ledger, advance_week_ledger] <;>
    first
      | exact ⟨[], by simp [hl], by rw [hl]; simpa using lastN_length_le 50 h⟩
      | (obtain ⟨e, he⟩ := handle_training_ledger cfg o p es.state
         exact ⟨[e], by rw [he, hl, append_ledger_lastN],
           by rw [he]; exact append_ledger_length_le _ _⟩)
      | (obtain ⟨e, he⟩ := handle_rest_ledger cfg es.state
         exact ⟨[e], by rw [he, hl, append_ledger_lastN],
           by rw [he]; exact append_ledger_length_le _ _⟩)
      | (obtain ⟨e, he⟩ := handle_agent_chat_ledger cfg p es.state
         exact ⟨[e], by rw [he, hl, append_ledger_lastN],
           by rw [he]; exact append_ledger_length_le _ _⟩)
      | (obtain ⟨e, he⟩ := handle_tournament_ledger cfg o es.state
         exact ⟨[e], by rw [he, hl, append_ledger_lastN],
           by rw [he]; exact append_ledger_length_le _ _⟩)

/-- Witness for C9: starting from an empty ledger (the 50-suffix of an
empty history), a rest action keeps the suffix shape. -/
theorem C9_ledger_bound_witness :
    ∃ app, (perform_action cfgW {} "rest" {} { state := stateW }).1.state.ledger =
        lastN 50 ([] ++ app) ∧
      (perform_action cfgW {} "rest" {} { state := stateW }).1.state.ledger.length ≤ 50 :=
  C9_ledger_bound cfgW {} "rest" {} { state := stateW } [] (by decide)

-- C8: persistence (corrected) ----------------------------------------------------

/-- Counterexample to C8: on a finished season the call still returns a
state, but the engine hands nothing to the store: the save log stays
empty. -/
theorem C8_counterexample :
    (perform_action cfgW {} "train" {} { state := stateTerminalW }).2 =
      Except.ok (perform_action cfgW {} "train" {} { state := stateTerminalW }).1.state ∧
    (perform_action cfgW {} "train" {} { state := stateTerminalW }).1.saved = [] := by
  constructor
  · rfl
  · rfl

set_option maxHeartbeats 4000000 in
/-- C8 amended: in an active season every recognized action hands the
resulting state to the store exactly once, right before returning it;
the SEASON_OVER path returns the state without saving. -/
theorem C8_save_once (cfg : Config) (o : Oracle) (a : String) (p : Payload)
    (es : EngineState) (hact : ¬ season_completed es.state)
    (hk : lowerStr a ∈ (["train", "rest", "tournament", "agent_chat"] : List String)) :
    (perform_action cfg o a p es).1.saved =
      es.saved ++ [(perform_action cfg o a p es).1.state] ∧
    (perform_action cfg o a p es).2 =
      Except.ok (perform_action cfg o a p es).1.state := by
  have hcond : lowerStr a = "train" ∨ lowerStr a = "rest" ∨ lowerStr a = "tournament" ∨
      lowerStr a = "agent_chat" := by simpa using hk
  simp only [perform_action]
  split_ifs <;> first
    | (exact absurd (by assumption) hact)
    | (exact absurd hcond (by assumption))
    | exact ⟨by simp, rfl⟩

/-- Witness for C8 amended: a rest week in an active season saves the
returned state exactly once. -/
theorem C8_save_once_witness :
    (perform_action cfgW {} "rest" {} { state := stateW }).1.saved =
      [] ++ [(perform_action cfgW {} "rest" {} { state := stateW }).1.state] ∧
    (perform_action cfgW {} "rest" {} { state := stateW }).2 =
      Except.ok (perform_action cfgW {} "rest" {} { state := stateW }).1.state :=
  C8_save_once cfgW {} "rest" {} { state := stateW } (by decide) (by decide)

-- C10: case-insensitive dispatch --------------------------------------------------

set_option maxHeartbeats 1000000 in
/-- C10: dispatch is case-insensitive: two action strings with the same
lowercasing behave identically, and in an active season any kind whose
lowercasing is recognized succeeds (so only kinds whose lowercase form is
unrecognized are rejected). -/
theorem C10_case_insensitive (cfg : Config) (o : Oracle) (a b : String) (p : Payload)
    (es : EngineState) (hab : lowerStr a = lowerStr b) :
    perform_action cfg o a p es = perform_action cfg o b p es ∧
    (¬ season_completed es.state →
      lowerStr a ∈ (["train", "rest", "tournament", "agent_chat"] : List String) →
      ∃ st, (perform_action cfg o a p es).2 = Except.ok st) := by
  constructor
  · simp only [perform_action, hab]
  · intro hact hk
    have hcond : lowerStr a = "train" ∨ lowerStr a = "rest" ∨ lowerStr a = "tournament" ∨
        lowerStr a = "agent_chat" := by simpa using hk
    simp only [perform_action]
    split_ifs <;> first
      | (exact absurd (by assumption) hact)
      | (exact absurd hcond (by assumption))
      | exact ⟨_, rfl⟩

/-- Witness for C10: "TRAIN" behaves exactly like "train" and is
accepted. -/
theorem C10_case_insensitive_witness :
    perform_action cfgW {} "TRAIN" { skill := some "driving" } { state := stateW } =
      perform_action cfgW {} "train" { skill := some "driving" } { state := stateW } ∧
    (¬ season_completed stateW →
      lowerStr "TRAIN" ∈ (["train", "rest", "tournament", "agent_chat"] : List String) →
      ∃ st, (perform_action cfgW {} "TRAIN" { skill := some "driving" }
        { state := stateW }).2 = Except.ok st) :=
  C10_case_insensitive cfgW {} "TRAIN" "train" { skill := some "driving" }
    { state := stateW } (by decide)

-- C2: ledger deltas (corrected) ---------------------------------------------------

set_option maxRecDepth 100000 in
/-- Counterexample to C2: training with nominal physical fatigue 10 on a
golfer at fatigue 95 clamps the attribute to 100 (an actual change of 5),
yet the ledger entry records the nominal 10; and a tournament in which
the reputation-0 golfer misses the cut records reputation_delta -2 while
the post-clamp reputation change is 0. -/
theorem C2_counterexample :
    ((perform_action cfgW {} "train" { skill := some "driving" }
        { state := stateW }).1.state.ledger.getLast?.map
      LedgerEntry.fatigue_physical_delta = some 10 ∧
    (perform_action cfgW {} "train" { skill := some "driving" }
        { state := stateW }).1.state.golfer.fatigue_physical -
      stateW.golfer.fatigue_physical = 5 ∧
    (10 : Int) ≠ 5) ∧
    ((perform_action cfgW {} "tournament" {}
        { state := stateTournamentW }).1.state.ledger.getLast?.map
      LedgerEntry.reputation_delta = some (-2) ∧
    (perform_action cfgW {} "tournament" {}
        { state := stateTournamentW }).1.state.golfer.reputation -
      stateTournamentW.golfer.reputation = 0 ∧
    (-2 : Int) ≠ 0) := by
  refine ⟨⟨by rfl, by rfl, by decide⟩, ⟨by rfl, by rfl, by decide⟩⟩

set_option maxHeartbeats 4000000 in
/-- C2 amended: the motivation delta recorded in the ledger is always the
actual post-clamp change (train and rest leave motivation untouched and
record 0); the rest and agent-chat handlers record the actual post-clamp
fatigue changes, and train, rest and agent_chat record the actual (zero)
reputation change; but the train and tournament handlers record the
nominal configured physical and mental fatigue magnitudes, and the
tournament handler records the nominal pre-clamp reputation gain — the
new reputation is the clamp max(0, old + recorded delta), not
old + recorded delta. -/
theorem C2_ledger_deltas (cfg : Config) (o : Oracle) (p : Payload)
    (st : SimulationState) :
    (∃ e, (handle_rest cfg st).ledger.getLast? = some e ∧
      e.fatigue_physical_delta =
        (handle_rest cfg st).golfer.fatigue_physical - st.golfer.fatigue_physical ∧
      e.fatigue_mental_delta =
        (handle_rest cfg st).golfer.fatigue_mental - st.golfer.fatigue_mental ∧
      e.motivation_delta =
        (handle_rest cfg st).golfer.motivation - st.golfer.motivation ∧
      e.reputation_delta =
        (handle_rest cfg st).golfer.reputation - st.golfer.reputation) ∧
    (∃ e, (handle_agent_chat cfg p st).ledger.getLast? = some e ∧
      e.fatigue_physical_delta =
        (handle_agent_chat cfg p st).golfer.fatigue_physical - st.golfer.fatigue_physical ∧
      e.fatigue_mental_delta =
        (handle_agent_chat cfg p st).golfer.fatigue_mental - st.golfer.fatigue_mental ∧
      e.motivation_delta =
        (handle_agent_chat cfg p st).golfer.motivation - st.golfer.motivation ∧
      e.reputation_delta =
        (handle_agent_chat cfg p st).golfer.reputation - st.golfer.reputation) ∧
    (∃ e, (handle_training cfg o p st).ledger.getLast? = some e ∧
      e.fatigue_physical_delta = cfg.training.physical_fatigue.getD (cfg.training.fatigue.getD 10) ∧
      e.fatigue_mental_delta = cfg.training.mental_fatigue.getD
        (max (Int.fdiv (cfg.training.physical_fatigue.getD (cfg.training.fatigue.getD 10)) 2) 0) ∧
      e.motivation_delta =
        (handle_training cfg o p st).golfer.motivation - st.golfer.motivation ∧
      e.reputation_delta =
        (handle_training cfg o p st).golfer.reputation - st.golfer.reputation) ∧
    (∀ t, st.season.lookup_tournament st.season.current_week = some t →
      ∃ e, (handle_tournament cfg o st).1.ledger.getLast? = some e ∧
        e.fatigue_physical_delta =
          cfg.tournament.physical_fatigue.getD (cfg.tournament.fatigue.getD 18) ∧
        e.fatigue_mental_delta = cfg.tournament.mental_fatigue.getD
          (max (Int.fdiv (cfg.tournament.physical_fatigue.getD
            (cfg.tournament.fatigue.getD 18)) 2) 0) ∧
        e.motivation_delta =
          (handle_tournament cfg o st).1.golfer.motivation - st.golfer.motivation ∧
        (handle_tournament cfg o st).1.golfer.reputation =
          max 0 (st.golfer.reputation + e.reputation_delta)) := by
  refine ⟨?_, ?_, ?_, ?_⟩
  · simp only [handle_rest]
    refine ⟨_, getLast?_append_ledger _ _, rfl, rfl, ?_, ?_⟩ <;> simp
  · simp only [handle_agent_chat, adjust_motivation]
    refine ⟨_, getLast?_append_ledger _ _, ?_, rfl, rfl, ?_⟩ <;> simp
  · simp only [handle_training]
    refine ⟨_, getLast?_append_ledger _ _, rfl, rfl, ?_, ?_⟩ <;> simp
  · intro t hlk
    simp only [handle_tournament, hlk, simulate_tournament_golfer, adjust_motivation]
    split_ifs <;> exact ⟨_, getLast?_append_ledger _ _, rfl, rfl, rfl, rfl⟩

/-- Witness for C2 amended: at the scheduled-tournament state the
tournament conjunct applies with its hypothesis discharged. -/
theorem C2_ledger_deltas_witness :
    ∃ e, (handle_tournament cfgW {} stateTournamentW).1.ledger.getLast? = some e ∧
      e.fatigue_physical_delta =
        cfgW.tournament.physical_fatigue.getD (cfgW.tournament.fatigue.getD 18) ∧
      e.fatigue_mental_delta = cfgW.tournament.mental_fatigue.getD
        (max (Int.fdiv (cfgW.tournament.physical_fatigue.getD
          (cfgW.tournament.fatigue.getD 18)) 2) 0) ∧
      e.motivation_delta =
        (handle_tournament cfgW {} stateTournamentW).1.golfer.motivation -
          stateTournamentW.golfer.motivation ∧
      (handle_tournament cfgW {} stateTournamentW).1.golfer.reputation =
        max 0 (stateTournamentW.golfer.reputation + e.reputation_delta) :=
  (C2_ledger_deltas cfgW {} {} stateTournamentW).2.2.2 tournamentW (by decide)

-- C3: the field size (corrected) ---------------------------------------------------

set_option maxRecDepth 40000 in
/-- Counterexample to C3: resolving a tournament without the human on the
engine-maintained roster (grown to its target of 199) fields 199 AI
entrants, not 200 — the 200-entrant slice finds only 199 roster players. -/
theorem C3_counterexample :
    (build_field (ensure_season_players {} stateW).season_players false {}).length = 199 ∧
    ¬ (build_field (ensure_season_players {} stateW).season_players false {}).length = 200 ∧
    (simulate_tournament {} tournamentW false stateW).2.final_order.length = 199 := by
  refine ⟨by rfl, by decide, by rfl⟩

/-- C3 amended: for any state whose roster has not outgrown the target
(at most 199 players, which the engine-maintained roster never exceeds),
the ensured roster holds exactly 199 players; the with-human field is
199 AI plus the human, 200 entrants in total, while the without-human
field is the 199 AI entrants alone. -/
theorem C3_field_size (o : Oracle) (st : SimulationState)
    (h : st.season_players.length ≤ 199) :
    (ensure_season_players o st).season_players.length = 199 ∧
    (build_field (ensure_season_players o st).season_players true o).length = 200 ∧
    (build_field (ensure_season_players o st).season_players false o).length = 199 := by
  have hlen : (ensure_season_players o st).season_players.length = 199 := by
    simp only [ensure_season_players]
    split_ifs with h1 h2
    · simp [generate_season_players]
    · simp [generate_season_players]
      omega
    · omega
  refine ⟨hlen, ?_, ?_⟩ <;> rw [build_field_length, hlen] <;> simp [field_size]

/-- Witness for C3 amended: from an empty roster the engine generates 199
AI players, giving fields of 200 (with the human) and 199 (without). -/
theorem C3_field_size_witness :
    (ensure_season_players {} stateW).season_players.length = 199 ∧
    (build_field (ensure_season_players {} stateW).season_players true {}).length = 200 ∧
    (build_field (ensure_season_players {} stateW).season_players false {}).length = 199 :=
  C3_field_size {} stateW (by decide)

end GolferCareer
